import Mathlib

/-!
Verification of the weather-notification pipeline of `weather_alert.py`
(with the threshold gate of the toolkit's alert-script family, reachable
through `cli.py --threshold`, modelled from the design document where the
gate itself is not among the shipped sources).

Python floats are embedded as exact rationals, Python ints as `Int`;
`int(...)` truncation, `round(...)` banker's rounding and f-string padding
are embedded explicitly below.
-/

set_option maxRecDepth 16000

/-- Embeds Python `int(q)` on a float: truncation toward zero. -/
def pyTrunc (q : ℚ) : ℤ := if 0 ≤ q then ⌊q⌋ else ⌈q⌉

/-- Embeds Python `round(q)` on a float: round half to even (banker's
rounding), which Python's builtin `round` uses. -/
def pyRound (q : ℚ) : ℤ :=
  if q - ⌊q⌋ < 1/2 then ⌊q⌋
  else if 1/2 < q - ⌊q⌋ then ⌊q⌋ + 1
  else if ⌊q⌋ % 2 = 0 then ⌊q⌋ else ⌊q⌋ + 1

/-- Embeds f-string right alignment `f"{s:>w}"`: pad on the left with
spaces up to width `w`. -/
def padLeft (s : String) (w : ℕ) : String :=
  String.mk (List.replicate (w - s.length) ' ') ++ s

/-- The 16-point rose of `deg_to_compass` (source line 41). -/
def compassPts : List String :=
  ["N", "NNE", "NE", "ENE", "E", "ESE", "SE", "SSE",
   "S", "SSW", "SW", "WSW", "W", "WNW", "NW", "NNW"]

/-- Embeds `deg_to_compass` (source lines 39-46):
`i = int((deg / 22.5) + 0.5) % 16; return pts[i]`. -/
def deg_to_compass (deg : ℚ) : String :=
  compassPts.getD (pyTrunc (deg / 22.5 + 0.5) % 16).toNat ""

/-- Embeds `pop_pct` (source lines 66-67):
`f"{int(round((x or 0) * 100)):>3d}%"`.  A `None` input is coalesced to
`0` by `(x or 0)` before scaling. -/
def pop_pct (x : Option ℚ) : String :=
  padLeft (toString (pyRound ((x.getD 0) * 100))) 3 ++ "%"

/-- Embeds `mm_to_inches` (source lines 70-71). -/
def mm_to_inches (mm : ℚ) : ℚ := mm / 25.4

/-- The `steps` list of `moon_label` (source lines 76-80). -/
def moonSteps : List (ℚ × String) :=
  [(0, "🌑 New"), (0.125, "🌒 Waxing crescent"), (0.25, "🌓 First quarter"),
   (0.375, "🌔 Waxing gibbous"), (0.5, "🌕 Full"), (0.625, "🌖 Waning gibbous"),
   (0.75, "🌗 Last quarter"), (0.875, "🌘 Waning crescent"), (1, "🌑 New")]

/-- Embeds `moon_label` (source lines 74-84): return the label of the
first step whose edge the phase is `≤`, falling back to the New label. -/
def moon_label (phase : ℚ) : String :=
  match moonSteps.find? (fun st => decide (phase ≤ st.1)) with
  | some st => st.2
  | none => "🌑 New"

/-- Embeds `weather_emoji` (source lines 87-101). -/
def weather_emoji (code : ℤ) : String :=
  if 200 ≤ code ∧ code < 300 then "⛈️"
  else if 300 ≤ code ∧ code < 600 then "🌦️"
  else if 600 ≤ code ∧ code < 700 then "❄️"
  else if 700 ≤ code ∧ code < 800 then "🌫️"
  else if code = 800 then "☀️"
  else if 801 ≤ code ∧ code ≤ 804 then "⛅"
  else "🌡️"

/-- Embeds `aqi_label` (source lines 104-113); a `None` input is coalesced
to `0` by `(aqi or 0)` and then misses the mapping. -/
def aqi_label (aqi : Option ℤ) : String :=
  match aqi.getD 0 with
  | 1 => "Good"
  | 2 => "Fair"
  | 3 => "Moderate"
  | 4 => "Poor"
  | 5 => "Very Poor"
  | _ => "n/a"

/-- Embeds `as_local` (source lines 116-120):
`datetime.fromtimestamp(ts, tz=timezone.utc).astimezone()`.  The bare
`astimezone()` call converts to the timezone of the machine the script
runs on, carried here as the explicit `sysOffset` argument (seconds east
of UTC); the result is the local wall-clock time in seconds.  The
`tz_name` parameter is accepted, as in the source, but never used. -/
def as_local (ts : ℤ) (tz_name : String) (sysOffset : ℤ) : ℤ :=
  ts + sysOffset

/- ---------- basic lemmas about the rounding helpers ---------- -/

lemma pyTrunc_of_nonneg {q : ℚ} (h : 0 ≤ q) : pyTrunc q = ⌊q⌋ := by
  simp [pyTrunc, h]

lemma pyRound_le_of_le {q : ℚ} {m : ℤ} (h : q ≤ (m : ℚ)) : pyRound q ≤ m := by
  have hfl : ⌊q⌋ ≤ m := by
    have := Int.floor_le_floor h
    simpa using this
  unfold pyRound
  split_ifs with h1 h2 h3
  · exact hfl
  · -- here 1/2 < q - ⌊q⌋, so ⌊q⌋ < q, hence ⌊q⌋ < m as integers
    have hl : (⌊q⌋ : ℚ) < q := by linarith
    have : (⌊q⌋ : ℚ) < (m : ℚ) := lt_of_lt_of_le hl h
    have : ⌊q⌋ < m := by exact_mod_cast this
    omega
  · exact hfl
  · have hhalf : q - ⌊q⌋ = 1/2 := by linarith
    have hl : (⌊q⌋ : ℚ) < q := by linarith
    have : (⌊q⌋ : ℚ) < (m : ℚ) := lt_of_lt_of_le hl h
    have : ⌊q⌋ < m := by exact_mod_cast this
    omega

lemma le_pyRound_of_le {m : ℤ} {q : ℚ} (h : (m : ℚ) ≤ q) : m ≤ pyRound q := by
  have hfl : m ≤ ⌊q⌋ := Int.le_floor.mpr h
  unfold pyRound
  split_ifs <;> omega

lemma pyTrunc_intCast (n : ℤ) : pyTrunc ((n : ℚ)) = n := by
  unfold pyTrunc
  split_ifs <;> simp

lemma pyRound_intCast (n : ℤ) : pyRound ((n : ℚ)) = n := by
  unfold pyRound
  rw [Int.floor_intCast]
  have : (n : ℚ) - (n : ℚ) = 0 := by ring
  rw [this]
  norm_num

lemma pop_pct_eval {x : ℚ} {n : ℤ} (h : x * 100 = (n : ℚ)) :
    pop_pct (some x) = padLeft (toString n) 3 ++ "%" := by
  show padLeft (toString (pyRound (x * 100))) 3 ++ "%" = _
  rw [h, pyRound_intCast]

lemma pop_pct_none_eval : pop_pct none = padLeft (toString ((0 : ℤ))) 3 ++ "%" := by
  show padLeft (toString (pyRound ((0 : ℚ) * 100))) 3 ++ "%" = _
  rw [show ((0 : ℚ) * 100) = (((0 : ℤ) : ℚ)) from by norm_num, pyRound_intCast]

lemma deg_to_compass_eval {d : ℚ} {n : ℤ} (hn : 0 ≤ n)
    (h0 : (n : ℚ) ≤ d / 22.5 + 0.5) (h1 : d / 22.5 + 0.5 < n + 1) :
    deg_to_compass d = compassPts.getD (n % 16).toNat "" := by
  have hnn : (0 : ℚ) ≤ d / 22.5 + 0.5 :=
    le_trans (by exact_mod_cast hn) h0
  have hfl : ⌊d / 22.5 + 0.5⌋ = n := Int.floor_eq_iff.mpr ⟨h0, by push_cast; linarith⟩
  show compassPts.getD (pyTrunc (d / 22.5 + 0.5) % 16).toNat "" = _
  rw [pyTrunc_of_nonneg hnn, hfl]

/- ---------- C1 / C2 : percent rendering ---------- -/

/-- C1 counterexample: `pop_pct None` is the right-aligned string
`"  0%"`, not a dash glyph, and `pop_pct 0.5` is `" 50%"`, the width-3
right-aligned digits rather than the bare `"50%"`. -/
theorem pop_pct_none_renders_zero :
    pop_pct none = "  0%" ∧ pop_pct (some (1/2)) = " 50%" := by
  constructor
  · rw [pop_pct_none_eval]
    decide
  · rw [pop_pct_eval (n := 50) (by norm_num)]
    decide

/-- C1 (amended): for `p` in `[0,1]`, `pop_pct` renders `round(p*100)`
(Python rounding) right-aligned to width 3 with a `%` suffix, where the
rounded value is a natural number at most 100; a `None` input renders
exactly like probability `0`, namely `"  0%"` — there is no dash
sentinel. -/
theorem pop_pct_renders (p : ℚ) (h0 : 0 ≤ p) (h1 : p ≤ 1) :
    (∃ n : ℕ, n ≤ 100 ∧ (n : ℤ) = pyRound (p * 100) ∧
      pop_pct (some p) = padLeft (toString ((n : ℤ))) 3 ++ "%") ∧
    pop_pct none = pop_pct (some 0) ∧ pop_pct none = "  0%" := by
  refine ⟨?_, rfl, by rw [pop_pct_none_eval]; decide⟩
  have hge : (0 : ℤ) ≤ pyRound (p * 100) := by
    apply le_pyRound_of_le
    push_cast
    linarith
  have hle : pyRound (p * 100) ≤ (100 : ℤ) := by
    apply pyRound_le_of_le
    push_cast
    linarith
  refine ⟨(pyRound (p * 100)).toNat, ?_, ?_, ?_⟩
  · omega
  · omega
  · have : ((pyRound (p * 100)).toNat : ℤ) = pyRound (p * 100) := by omega
    rw [this]
    rfl

/-- Witness for C1 at `p = 1/4`. -/
theorem pop_pct_renders_witness :
    ((0 : ℚ) ≤ 1/4 ∧ (1/4 : ℚ) ≤ 1) ∧
    ((∃ n : ℕ, n ≤ 100 ∧ (n : ℤ) = pyRound ((1/4 : ℚ) * 100) ∧
      pop_pct (some (1/4)) = padLeft (toString ((n : ℤ))) 3 ++ "%") ∧
    pop_pct none = pop_pct (some 0) ∧ pop_pct none = "  0%") :=
  ⟨⟨by norm_num, by norm_num⟩, pop_pct_renders (1/4) (by norm_num) (by norm_num)⟩

/-- C2 counterexample: probabilities are not clamped to `[0,1]` before
rendering: an out-of-range input `1.5` renders as `"150%"`, a percentage
outside 0%..100%. -/
theorem pop_pct_not_clamped : pop_pct (some (3/2)) = "150%" := by
  rw [pop_pct_eval (n := 150) (by norm_num)]
  decide

/-- C2 (amended): no clamping is applied anywhere, but for every `p`
already in `[0,1]` the rendered percentage value `round(p*100)` does lie
in `0..100`; inputs outside `[0,1]` render outside that range. -/
theorem pop_pct_in_range (p : ℚ) (h0 : 0 ≤ p) (h1 : p ≤ 1) :
    0 ≤ pyRound (p * 100) ∧ pyRound (p * 100) ≤ 100 ∧
    pop_pct (some p) = padLeft (toString (pyRound (p * 100))) 3 ++ "%" := by
  refine ⟨?_, ?_, rfl⟩
  · apply le_pyRound_of_le
    push_cast
    linarith
  · apply pyRound_le_of_le
    push_cast
    linarith

/-- Witness for C2 at `p = 9/10`. -/
theorem pop_pct_in_range_witness :
    ((0 : ℚ) ≤ 9/10 ∧ (9/10 : ℚ) ≤ 1) ∧
    (0 ≤ pyRound ((9/10 : ℚ) * 100) ∧ pyRound ((9/10 : ℚ) * 100) ≤ 100 ∧
      pop_pct (some (9/10)) = padLeft (toString (pyRound ((9/10 : ℚ) * 100))) 3 ++ "%") :=
  ⟨⟨by norm_num, by norm_num⟩, pop_pct_in_range (9/10) (by norm_num) (by norm_num)⟩

/- ---------- C6 / C7 : compass bearing ---------- -/

/-- C6: on `[0,360)` the compass function agrees with round-half-up of
`d/22.5` taken mod 16 into the 16-point rose (Mathlib's `round` on `ℚ`
is exactly round-half-up, `⌊x + 1/2⌋`); the exact half-point `11.25`
resolves to `"NNE"`, the point one step clockwise from
`deg_to_compass 0 = "N"`. -/
theorem deg_to_compass_round_half_up (d : ℚ) (h0 : 0 ≤ d) (h1 : d < 360) :
    deg_to_compass d = compassPts.getD ((round (d / 22.5)) % 16).toNat "" ∧
    deg_to_compass 11.25 = "NNE" ∧ deg_to_compass 0 = "N" ∧
    compassPts.getD 1 "" = "NNE" := by
  refine ⟨?_, ?_, ?_, by decide⟩
  · have hnn : (0 : ℚ) ≤ d / 22.5 + 0.5 := by positivity
    rw [deg_to_compass, pyTrunc_of_nonneg hnn, round_eq]
    have h05 : (0.5 : ℚ) = 1/2 := by norm_num
    rw [h05]
  · rw [deg_to_compass_eval (n := 1) (by norm_num) (by norm_num) (by norm_num)]
    decide
  · rw [deg_to_compass_eval (n := 0) (by norm_num) (by norm_num) (by norm_num)]
    decide

/-- Witness for C6 at `d = 45`. -/
theorem deg_to_compass_round_half_up_witness :
    ((0 : ℚ) ≤ 45 ∧ (45 : ℚ) < 360) ∧
    (deg_to_compass 45 = compassPts.getD ((round ((45 : ℚ) / 22.5)) % 16).toNat "" ∧
      deg_to_compass 11.25 = "NNE" ∧ deg_to_compass 0 = "N" ∧
      compassPts.getD 1 "" = "NNE") :=
  ⟨⟨by norm_num, by norm_num⟩,
    deg_to_compass_round_half_up 45 (by norm_num) (by norm_num)⟩

/-- C7: the compass function is periodic with period 360 on `[0,360)`. -/
theorem deg_to_compass_periodic (d : ℚ) (h0 : 0 ≤ d) (h1 : d < 360) :
    deg_to_compass (d + 360) = deg_to_compass d := by
  have hnn : (0 : ℚ) ≤ d / 22.5 + 0.5 := by positivity
  have hnn' : (0 : ℚ) ≤ (d + 360) / 22.5 + 0.5 := by positivity
  have harg : (d + 360) / 22.5 + 0.5 = (d / 22.5 + 0.5) + (16 : ℤ) := by
    push_cast
    ring
  rw [deg_to_compass, deg_to_compass, pyTrunc_of_nonneg hnn,
    pyTrunc_of_nonneg hnn', harg, Int.floor_add_int]
  have hm : (⌊d / 22.5 + 0.5⌋ + 16) % 16 = ⌊d / 22.5 + 0.5⌋ % 16 := by omega
  rw [hm]

/-- Witness for C7 at `d = 90`. -/
theorem deg_to_compass_periodic_witness :
    ((0 : ℚ) ≤ 90 ∧ (90 : ℚ) < 360) ∧ deg_to_compass (90 + 360) = deg_to_compass 90 :=
  ⟨⟨by norm_num, by norm_num⟩, deg_to_compass_periodic 90 (by norm_num) (by norm_num)⟩

/- ---------- C8 : moon phase label ---------- -/

lemma moon_label_eq (p : ℚ) :
    moon_label p =
      if p ≤ 0 then "🌑 New"
      else if p ≤ 0.125 then "🌒 Waxing crescent"
      else if p ≤ 0.25 then "🌓 First quarter"
      else if p ≤ 0.375 then "🌔 Waxing gibbous"
      else if p ≤ 0.5 then "🌕 Full"
      else if p ≤ 0.625 then "🌖 Waning gibbous"
      else if p ≤ 0.75 then "🌗 Last quarter"
      else if p ≤ 0.875 then "🌘 Waning crescent"
      else "🌑 New" := by
  by_cases h1 : p ≤ 0
  · simp [moon_label, moonSteps, List.find?, h1]
  by_cases h2 : p ≤ 0.125
  · simp [moon_label, moonSteps, List.find?, h1, h2]
  by_cases h3 : p ≤ 0.25
  · simp [moon_label, moonSteps, List.find?, h1, h2, h3]
  by_cases h4 : p ≤ 0.375
  · simp [moon_label, moonSteps, List.find?, h1, h2, h3, h4]
  by_cases h5 : p ≤ 0.5
  · simp [moon_label, moonSteps, List.find?, h1, h2, h3, h4, h5]
  by_cases h6 : p ≤ 0.625
  · simp [moon_label, moonSteps, List.find?, h1, h2, h3, h4, h5, h6]
  by_cases h7 : p ≤ 0.75
  · simp [moon_label, moonSteps, List.find?, h1, h2, h3, h4, h5, h6, h7]
  by_cases h8 : p ≤ 0.875
  · simp [moon_label, moonSteps, List.find?, h1, h2, h3, h4, h5, h6, h7, h8]
  by_cases h9 : p ≤ 1
  · simp [moon_label, moonSteps, List.find?, h1, h2, h3, h4, h5, h6, h7, h8, h9]
  · simp [moon_label, moonSteps, List.find?, h1, h2, h3, h4, h5, h6, h7, h8, h9]

/-- C8: on `[0,1]` the moon label is assigned to the first of the nine
fixed upper-bound edges `0, 0.125, …, 0.875, 1` that the phase is `≤`,
and both endpoints map to the New label; the result is always one of the
nine step labels. -/
theorem moon_label_edges (p : ℚ) (hp0 : 0 ≤ p) (hp1 : p ≤ 1) :
    (p ≤ 0 → moon_label p = "🌑 New") ∧
    (0 < p → p ≤ 0.125 → moon_label p = "🌒 Waxing crescent") ∧
    (0.125 < p → p ≤ 0.25 → moon_label p = "🌓 First quarter") ∧
    (0.25 < p → p ≤ 0.375 → moon_label p = "🌔 Waxing gibbous") ∧
    (0.375 < p → p ≤ 0.5 → moon_label p = "🌕 Full") ∧
    (0.5 < p → p ≤ 0.625 → moon_label p = "🌖 Waning gibbous") ∧
    (0.625 < p → p ≤ 0.75 → moon_label p = "🌗 Last quarter") ∧
    (0.75 < p → p ≤ 0.875 → moon_label p = "🌘 Waning crescent") ∧
    (0.875 < p → moon_label p = "🌑 New") ∧
    moon_label p ∈ moonSteps.map Prod.snd := by
  rw [moon_label_eq]
  refine ⟨?_, ?_, ?_, ?_, ?_, ?_, ?_, ?_, ?_, ?_⟩
  · intro h
    rw [if_pos h]
  · intro ha hb
    rw [if_neg (by linarith), if_pos hb]
  · intro ha hb
    rw [if_neg (by linarith), if_neg (by linarith), if_pos hb]
  · intro ha hb
    rw [if_neg (by linarith), if_neg (by linarith), if_neg (by linarith), if_pos hb]
  · intro ha hb
    rw [if_neg (by linarith), if_neg (by linarith), if_neg (by linarith),
      if_neg (by linarith), if_pos hb]
  · intro ha hb
    rw [if_neg (by linarith), if_neg (by linarith), if_neg (by linarith),
      if_neg (by linarith), if_neg (by linarith), if_pos hb]
  · intro ha hb
    rw [if_neg (by linarith), if_neg (by linarith), if_neg (by linarith),
      if_neg (by linarith), if_neg (by linarith), if_neg (by linarith), if_pos hb]
  · intro ha hb
    rw [if_neg (by linarith), if_neg (by linarith), if_neg (by linarith),
      if_neg (by linarith), if_neg (by linarith), if_neg (by linarith),
      if_neg (by linarith), if_pos hb]
  · intro ha
    rw [if_neg (by linarith), if_neg (by linarith), if_neg (by linarith),
      if_neg (by linarith), if_neg (by linarith), if_neg (by linarith),
      if_neg (by linarith), if_neg (by linarith)]
  · split_ifs <;> simp [moonSteps]

/-- Witness for C8 at `p = 1/2`. -/
theorem moon_label_edges_witness :
    ((0 : ℚ) ≤ 1/2 ∧ (1/2 : ℚ) ≤ 1) ∧
    (((1 : ℚ)/2 ≤ 0 → moon_label (1/2) = "🌑 New") ∧
    (0 < (1 : ℚ)/2 → (1 : ℚ)/2 ≤ 0.125 → moon_label (1/2) = "🌒 Waxing crescent") ∧
    (0.125 < (1 : ℚ)/2 → (1 : ℚ)/2 ≤ 0.25 → moon_label (1/2) = "🌓 First quarter") ∧
    (0.25 < (1 : ℚ)/2 → (1 : ℚ)/2 ≤ 0.375 → moon_label (1/2) = "🌔 Waxing gibbous") ∧
    (0.375 < (1 : ℚ)/2 → (1 : ℚ)/2 ≤ 0.5 → moon_label (1/2) = "🌕 Full") ∧
    (0.5 < (1 : ℚ)/2 → (1 : ℚ)/2 ≤ 0.625 → moon_label (1/2) = "🌖 Waning gibbous") ∧
    (0.625 < (1 : ℚ)/2 → (1 : ℚ)/2 ≤ 0.75 → moon_label (1/2) = "🌗 Last quarter") ∧
    (0.75 < (1 : ℚ)/2 → (1 : ℚ)/2 ≤ 0.875 → moon_label (1/2) = "🌘 Waning crescent") ∧
    (0.875 < (1 : ℚ)/2 → moon_label (1/2) = "🌑 New") ∧
    moon_label (1/2) ∈ moonSteps.map Prod.snd) :=
  ⟨⟨by norm_num, by norm_num⟩, moon_label_edges (1/2) (by norm_num) (by norm_num)⟩

/- ---------- C3 : timestamps and the snapshot timezone ---------- -/

/-- C3 (code bug): the local rendering of a timestamp is NOT determined
by the timestamp and the payload's timezone name alone — `as_local`
ignores `tz_name` entirely (first conjunct) and its output changes with
the machine's own timezone offset while `ts` and `tz_name` are held
fixed (second conjunct: epoch 0 under a UTC machine versus a
`-18000`-second / UTC-5 machine). -/
theorem as_local_ignores_timezone :
    (∀ (ts : ℤ) (t₁ t₂ : String) (off : ℤ),
      as_local ts t₁ off = as_local ts t₂ off) ∧
    as_local 0 "America/New_York" (-18000) ≠ as_local 0 "America/New_York" 0 := by
  constructor
  · intro ts t₁ t₂ off
    rfl
  · decide

/- ---------- C10 : safe_get over payload values ---------- -/

/-- A Python dictionary key as used in the script's `safe_get` paths:
either a string key or an integer index. -/
inductive PyKey where
  | s (k : String)
  | i (n : ℤ)
deriving DecidableEq

/-- A Python value as found in a decoded JSON payload: `None`, a bool,
an int, a float (exact rational), a string, a list, or a dict. -/
inductive Val where
  | vNone
  | vBool (b : Bool)
  | vInt (n : ℤ)
  | vRat (q : ℚ)
  | vStr (s : String)
  | vList (xs : List Val)
  | vDict (kvs : List (PyKey × Val))

/-- Embeds `key in cur` / `cur[key]` on a dict represented as an
association list (Python dict keys are unique, so first match is the
binding). -/
def lookup (kvs : List (PyKey × Val)) (k : PyKey) : Option Val :=
  (kvs.find? fun kv => decide (kv.1 = k)).map Prod.snd

/-- Embeds `safe_get` (source lines 57-63): walk the path, returning the
default as soon as the current value is not a dict or lacks the key. -/
def safe_get : Val → List PyKey → Val → Val
  | cur, [], _ => cur
  | cur, k :: rest, dflt =>
    match cur with
    | Val.vDict kvs =>
      match lookup kvs k with
      | some v => safe_get v rest dflt
      | none => dflt
    | _ => dflt

/-- Strict traversal of a key path: `some` only if every step goes
through a dict that has the key. -/
def navigate : Val → List PyKey → Option Val
  | cur, [] => some cur
  | cur, k :: rest =>
    match cur with
    | Val.vDict kvs =>
      match lookup kvs k with
      | some v => navigate v rest
      | none => none
    | _ => none

/-- The current value is a dict carrying the next key of the path. -/
def hasKeyStep (v : Val) (k : PyKey) : Prop :=
  ∃ kvs, v = Val.vDict kvs ∧ ∃ w, lookup kvs k = some w

lemma safe_get_append (d : Val) (p₁ rest : List PyKey) (dflt : Val) :
    safe_get d (p₁ ++ rest) dflt =
      match navigate d p₁ with
      | some v => safe_get v rest dflt
      | none => dflt := by
  induction p₁ generalizing d with
  | nil => simp [navigate]
  | cons k p₁ ih =>
    cases d with
    | vDict kvs =>
      simp only [List.cons_append, safe_get, navigate]
      cases lookup kvs k with
      | some v => exact ih v
      | none => rfl
    | vNone => rfl
    | vBool b => rfl
    | vInt n => rfl
    | vRat q => rfl
    | vStr s => rfl
    | vList xs => rfl

lemma safe_get_nav (d : Val) (path : List PyKey) (dflt : Val) :
    safe_get d path dflt = dflt ∨
      ∃ w, navigate d path = some w ∧ safe_get d path dflt = w := by
  induction path generalizing d with
  | nil =>
    right
    exact ⟨d, rfl, rfl⟩
  | cons k rest ih =>
    cases d with
    | vDict kvs =>
      simp only [safe_get, navigate]
      cases lookup kvs k with
      | some v => exact ih v
      | none => exact Or.inl rfl
    | vNone => exact Or.inl rfl
    | vBool b => exact Or.inl rfl
    | vInt n => exact Or.inl rfl
    | vRat q => exact Or.inl rfl
    | vStr s => exact Or.inl rfl
    | vList xs => exact Or.inl rfl

/-- C10: `safe_get` is total (it always returns — either the default or
the value the path strictly navigates to), it returns the default as
soon as any intermediate value along the path is not a dict carrying the
next key, and in particular any path step landing on a list value (lists
are not dicts) forces the default, whatever the payload holds. -/
theorem safe_get_safe (d : Val) (path : List PyKey) (dflt : Val) :
    (safe_get d path dflt = dflt ∨
      ∃ w, navigate d path = some w ∧ safe_get d path dflt = w) ∧
    (∀ p₁ k p₂ v, path = p₁ ++ k :: p₂ → navigate d p₁ = some v →
      ¬ hasKeyStep v k → safe_get d path dflt = dflt) ∧
    (∀ p₁ k p₂ xs, path = p₁ ++ k :: p₂ → navigate d p₁ = some (Val.vList xs) →
      safe_get d path dflt = dflt) := by
  have core : ∀ p₁ k p₂ v, path = p₁ ++ k :: p₂ → navigate d p₁ = some v →
      ¬ hasKeyStep v k → safe_get d path dflt = dflt := by
    intro p₁ k p₂ v hsplit hnav hbad
    rw [hsplit, safe_get_append, hnav]
    cases v with
    | vDict kvs =>
      simp only [safe_get]
      cases hlk : lookup kvs k with
      | some w => exact absurd ⟨kvs, rfl, w, hlk⟩ hbad
      | none => rfl
    | vNone => rfl
    | vBool b => rfl
    | vInt n => rfl
    | vRat q => rfl
    | vStr s => rfl
    | vList xs => rfl
  refine ⟨safe_get_nav d path dflt, core, ?_⟩
  intro p₁ k p₂ xs hsplit hnav
  refine core p₁ k p₂ (Val.vList xs) hsplit hnav ?_
  rintro ⟨kvs, heq, -⟩
  cases heq

/-- Witness for C10: the script's own call
`safe_get(cur, ["weather", 0, "description"], "")` over a payload whose
`weather` field is (as the provider sends it) a list, evaluated via the
theorem at prefix `["weather"]`. -/
theorem safe_get_safe_witness :
    safe_get
      (Val.vDict [(PyKey.s "weather",
        Val.vList [Val.vDict [(PyKey.s "description", Val.vStr "clear sky")]])])
      [PyKey.s "weather", PyKey.i 0, PyKey.s "description"]
      (Val.vStr "") = Val.vStr "" :=
  (safe_get_safe
      (Val.vDict [(PyKey.s "weather",
        Val.vList [Val.vDict [(PyKey.s "description", Val.vStr "clear sky")]])])
      [PyKey.s "weather", PyKey.i 0, PyKey.s "description"]
      (Val.vStr "")).2.2
    [PyKey.s "weather"] (PyKey.i 0) [PyKey.s "description"]
    [Val.vDict [(PyKey.s "description", Val.vStr "clear sky")]]
    rfl rfl

/- ---------- C4 : the alert gate (spec-modelled) ---------- -/

/-- Modelled from the spec: the `AlertPolicy` record of §3 — the
probability threshold, the lookahead horizon in hourly slots, and the
force-send flag — for the threshold gate that `cli.py --threshold`
targets but that is absent from the shipped sources. -/
structure AlertPolicy where
  threshold : ℚ
  horizon : ℕ
  force : Bool

/-- Modelled from the spec: the precipitation-relevant fields of an
`HourlySlot` (§3) consumed by the alert gate. -/
structure GateSlot where
  pop : ℚ
  rain : ℚ
  snow : ℚ

/-- Outcome of one gate run: either the dispatcher was handed a
payload of the given kind, or the run ended as a no-op. -/
inductive GateOutcome where
  | dispatched (kind : String)
  | noop
deriving DecidableEq

/-- Modelled from the spec (§4.5): Evaluate transitions to Dispatch with
an "alert" payload if at least one hourly slot within the horizon meets
or exceeds the probability threshold or carries non-zero accumulation;
otherwise Dispatch "summary" when `force` is set; otherwise terminate
without dispatching. -/
def alert_gate (slots : List GateSlot) (policy : AlertPolicy) : GateOutcome :=
  if (slots.take policy.horizon).any
      (fun s => decide (policy.threshold ≤ s.pop) ||
        decide (s.rain ≠ 0) || decide (s.snow ≠ 0))
  then GateOutcome.dispatched "alert"
  else if policy.force then GateOutcome.dispatched "summary"
  else GateOutcome.noop

/-- Number of times the delivery channel's `send` is invoked for a gate
outcome: exactly one per Dispatch transition, none for a no-op. -/
def dispatchCount : GateOutcome → ℕ
  | GateOutcome.dispatched _ => 1
  | GateOutcome.noop => 0

/-- C4: with threshold `0.2`, `force = false`, and every hourly slot
carrying probability `0.0` (and, as in the spec's scenario B snapshot,
no accumulation), the gate terminates as a successful no-op and the
dispatcher is never invoked. -/
theorem alert_gate_noop (slots : List GateSlot) (policy : AlertPolicy)
    (hthr : policy.threshold = 0.2) (hforce : policy.force = false)
    (hzero : ∀ s ∈ slots, s.pop = 0 ∧ s.rain = 0 ∧ s.snow = 0) :
    alert_gate slots policy = GateOutcome.noop ∧
    dispatchCount (alert_gate slots policy) = 0 := by
  have hany : (slots.take policy.horizon).any
      (fun s => decide (policy.threshold ≤ s.pop) ||
        decide (s.rain ≠ 0) || decide (s.snow ≠ 0)) = false := by
    rw [List.any_eq_false]
    intro s hs
    obtain ⟨hp, hr, hsn⟩ := hzero s (List.mem_of_mem_take hs)
    simp [hp, hr, hsn, hthr]
    norm_num
  have : alert_gate slots policy = GateOutcome.noop := by
    rw [alert_gate, hany, hforce]
    simp
  refine ⟨this, ?_⟩
  rw [this]
  rfl

/-- Witness for C4: two all-dry slots under the default policy. -/
theorem alert_gate_noop_witness :
    ((AlertPolicy.mk 0.2 12 false).threshold = 0.2 ∧
      (AlertPolicy.mk 0.2 12 false).force = false ∧
      (∀ s ∈ [GateSlot.mk 0 0 0, GateSlot.mk 0 0 0],
        s.pop = 0 ∧ s.rain = 0 ∧ s.snow = 0)) ∧
    (alert_gate [GateSlot.mk 0 0 0, GateSlot.mk 0 0 0] (AlertPolicy.mk 0.2 12 false) =
      GateOutcome.noop ∧
    dispatchCount (alert_gate [GateSlot.mk 0 0 0, GateSlot.mk 0 0 0]
      (AlertPolicy.mk 0.2 12 false)) = 0) :=
  ⟨⟨rfl, rfl, by intro s hs; simp at hs; subst hs; exact ⟨rfl, rfl, rfl⟩⟩,
    alert_gate_noop [GateSlot.mk 0 0 0, GateSlot.mk 0 0 0] (AlertPolicy.mk 0.2 12 false)
      rfl rfl (by intro s hs; simp at hs; subst hs; exact ⟨rfl, rfl, rfl⟩)⟩

/- ---------- Python dynamic-semantics helpers for the composer ---------- -/

/-- A Python exception as raised by the pipeline's payload accesses. -/
inductive PyErr where
  | keyError (k : PyKey)
  | indexError
  | typeError
  | attributeError
deriving DecidableEq

/-- Embeds `d.get(k, default)`: `AttributeError` on a non-dict receiver. -/
def pyGet (v : Val) (k : String) (dflt : Val) : Except PyErr Val :=
  match v with
  | Val.vDict kvs => Except.ok ((lookup kvs (PyKey.s k)).getD dflt)
  | _ => Except.error PyErr.attributeError

/-- Embeds `d[k]` subscription on a dict: `KeyError` when absent,
`TypeError` on a non-dict receiver. -/
def pyGetItem (v : Val) (k : String) : Except PyErr Val :=
  match v with
  | Val.vDict kvs =>
    match lookup kvs (PyKey.s k) with
    | some w => Except.ok w
    | none => Except.error (PyErr.keyError (PyKey.s k))
  | _ => Except.error PyErr.typeError

/-- Embeds `xs[i]` on a list with a nonnegative index: `IndexError` when
out of range, `TypeError` on a non-list receiver. -/
def pyIndex (v : Val) (i : ℕ) : Except PyErr Val :=
  match v with
  | Val.vList xs =>
    match xs.get? i with
    | some w => Except.ok w
    | none => Except.error PyErr.indexError
  | _ => Except.error PyErr.typeError

/-- Embeds using a payload value as a list (iteration, slicing). -/
def pyList (v : Val) : Except PyErr (List Val) :=
  match v with
  | Val.vList xs => Except.ok xs
  | _ => Except.error PyErr.typeError

/-- Embeds `int(v)` on payload values: ints pass through, floats
truncate toward zero, bools become 0/1; other types raise.  (Parsing of
numeric strings is not modelled; the payload's timestamps and condition
ids are numbers.) -/
def pyIntC (v : Val) : Except PyErr ℤ :=
  match v with
  | Val.vInt n => Except.ok n
  | Val.vRat q => Except.ok (pyTrunc q)
  | Val.vBool b => Except.ok (if b then 1 else 0)
  | _ => Except.error PyErr.typeError

/-- Embeds the implicit numeric coercion of arithmetic on a payload
value (`round(x)`, `x / 22.5`, …): `TypeError` on non-numbers. -/
def pyNum (v : Val) : Except PyErr ℚ :=
  match v with
  | Val.vInt n => Except.ok ((n : ℚ))
  | Val.vRat q => Except.ok q
  | Val.vBool b => Except.ok (if b then 1 else 0)
  | _ => Except.error PyErr.typeError

/-- Embeds Python truthiness, as used by `x or default` / `if not x`. -/
def pyTruthy (v : Val) : Bool :=
  match v with
  | Val.vNone => false
  | Val.vBool b => b
  | Val.vInt n => decide (n ≠ 0)
  | Val.vRat q => decide (q ≠ 0)
  | Val.vStr s => decide (s ≠ "")
  | Val.vList xs => !xs.isEmpty
  | Val.vDict kvs => !kvs.isEmpty

/-- Embeds `a or b`. -/
def pyOr (a b : Val) : Val := if pyTruthy a then a else b

/-- Embeds using a payload value as a string (`.title()`, `.strip()`):
`AttributeError` on non-strings. -/
def asStrE (v : Val) : Except PyErr String :=
  match v with
  | Val.vStr s => Except.ok s
  | _ => Except.error PyErr.attributeError

/-- Embeds the `float | None` argument view of `pop_pct`'s caller:
`None` stays absent, numbers coerce, anything else raises inside
`round((x or 0) * 100)`. -/
def popArgE (v : Val) : Except PyErr (Option ℚ) :=
  match v with
  | Val.vNone => Except.ok none
  | w => (pyNum w).map some

/-- Embeds `str.title()` for the ASCII descriptions of the payload:
uppercase every letter that follows a non-letter, lowercase the rest. -/
def titleAux : Bool → List Char → List Char
  | _, [] => []
  | prev, c :: cs =>
    (if c.isAlpha then (if prev then c.toLower else c.toUpper) else c) ::
      titleAux c.isAlpha cs

/-- Embeds `s.title()`. -/
def pyTitle (s : String) : String := String.mk (titleAux false s.data)

/-- Embeds `s.strip()`. -/
def pyStrip (s : String) : String :=
  String.mk (((s.data.dropWhile (·.isWhitespace)).reverse.dropWhile
    (·.isWhitespace)).reverse)

/-- Embeds `html.escape` on one character (quote=True default: `&`,
`<`, `>`, `"` and the apostrophe are replaced). -/
def escapeChar (c : Char) : List Char :=
  if c = '&' then "&amp;".data
  else if c = '<' then "&lt;".data
  else if c = '>' then "&gt;".data
  else if c = '"' then "&quot;".data
  else if c = '\'' then "&#x27;".data
  else [c]

/-- Embeds `html.escape` on a character list. -/
def escList (l : List Char) : List Char := (l.map escapeChar).flatten

/-- Embeds `html.escape(s)`. -/
def html_escape (s : String) : String :=
  String.mk (escList s.data)

/-- Embeds the zero padding inside fixed-point rendering. -/
def padZeros (s : String) (w : ℕ) : String :=
  String.mk (List.replicate (w - s.length) '0') ++ s

/-- Embeds the f-string fixed-point format `f"{q:.prec f}"` (Python
formats with round-half-even on the value). -/
def fmtFixed (q : ℚ) (prec : ℕ) : String :=
  let n := pyRound (q * ((10 : ℚ) ^ prec))
  let sign := if n < 0 then "-" else ""
  let m := n.natAbs
  sign ++ toString (m / 10 ^ prec) ++ "." ++ padZeros (toString (m % 10 ^ prec)) prec

/-- Fractional decimal digits of `0 ≤ q < 1`, used by float repr. -/
def fracDigits : ℕ → ℚ → String
  | 0, _ => ""
  | fuel + 1, q =>
    if q = 0 then ""
    else
      let d := ⌊q * 10⌋
      toString d ++ fracDigits fuel (q * 10 - (d : ℚ))

/-- Embeds Python's `repr`/`str` of a float for the decimal-exact values
the payload carries (e.g. `0.5` ↦ `"0.5"`, `6` ↦ `"6.0"`). -/
def pyFloatRepr (q : ℚ) : String :=
  let sign := if q < 0 then "-" else ""
  let a := |q|
  let fp := a - (⌊a⌋ : ℚ)
  sign ++ toString ⌊a⌋ ++ "." ++ (if fp = 0 then "0" else fracDigits 17 fp)

/-- Embeds `str(v)` / f-string interpolation of a payload value. -/
def pyStr (v : Val) : String :=
  match v with
  | Val.vNone => "None"
  | Val.vBool b => if b then "True" else "False"
  | Val.vInt n => toString n
  | Val.vRat q => pyFloatRepr q
  | Val.vStr s => s
  | Val.vList _ => "[…]"
  | Val.vDict _ => "{…}"

/- ---------- the HTML/text builders (source lines 205-402) ---------- -/

/-- The unit-label record returned by `fmt_units` (source lines 49-54). -/
structure UnitLabels where
  temp : String
  speed : String
  precip : String
deriving DecidableEq

/-- Embeds `fmt_units`. -/
def fmt_units (units : String) : UnitLabels :=
  if units = "imperial" then ⟨"°F", "mph", "in"⟩
  else if units = "metric" then ⟨"°C", "m/s", "mm"⟩
  else ⟨"K", "m/s", "mm"⟩

/-- The `line` computed by `build_now_block` (source lines 207-226),
shared verbatim by its HTML and text renderings. -/
def build_now_line (cur : Val) (units : String) : Except PyErr String := do
  let u := fmt_units units
  let descS ← asStrE (safe_get cur
    [PyKey.s "weather", PyKey.i 0, PyKey.s "description"] (Val.vStr ""))
  let desc := pyTitle descS
  let code ← pyIntC (safe_get cur
    [PyKey.s "weather", PyKey.i 0, PyKey.s "id"] (Val.vInt 800))
  let emoji := weather_emoji code
  let temp := toString (pyRound (← pyNum (← pyGet cur "temp" (Val.vInt 0)))) ++ u.temp
  let feels := toString (pyRound (← pyNum (← pyGet cur "feels_like" (Val.vInt 0)))) ++ u.temp
  let humidity := pyStr (← pyGet cur "humidity" (Val.vInt 0)) ++ "%"
  let clouds := pyStr (← pyGet cur "clouds" (Val.vInt 0)) ++ "%"
  let uv := pyStr (← pyGet cur "uvi" (Val.vInt 0))
  let windSpd ← pyNum (← pyGet cur "wind_speed" (Val.vRat 0))
  let windDeg ← pyNum (← pyGet cur "wind_deg" (Val.vInt 0))
  let wind := toString (pyRound windSpd) ++ " " ++ u.speed ++ " " ++ deg_to_compass windDeg
  return emoji ++ " " ++ desc ++ ". Temp " ++ temp ++ ", feels " ++ feels ++
    ". Wind " ++ wind ++ ". Humidity " ++ humidity ++ ". UV " ++ uv ++
    ". Clouds " ++ clouds ++ "."

/-- The (dedented, stripped) HTML wrapper of the Now block. -/
def now_html_of (line : String) : String :=
  "<h3 style=\"margin:0.2rem 0\">Now</h3>\n<p style=\"margin:0.2rem 0\">\n  " ++
    html_escape line ++ "\n</p>"

/-- Embeds `build_now_block` (source lines 207-235). -/
def build_now_block (cur : Val) (units : String) : Except PyErr (String × String) := do
  let line ← build_now_line cur units
  return (now_html_of line, line)

/-- The `line` computed by `build_today_block` (source lines 238-264).
The `strf` parameter is the embedding of
`as_local(ts, tz_name).strftime(fmt)`, which (see `as_local`) depends on
the machine environment, not on `tz_name`. -/
def build_today_line (today : Val) (units : String)
    (strf : String → ℤ → String) : Except PyErr String := do
  let u := fmt_units units
  let descS ← asStrE (safe_get today
    [PyKey.s "weather", PyKey.i 0, PyKey.s "description"] (Val.vStr ""))
  let desc := pyTitle descS
  let code ← pyIntC (safe_get today
    [PyKey.s "weather", PyKey.i 0, PyKey.s "id"] (Val.vInt 800))
  let emoji := weather_emoji code
  let tmin := toString (pyRound (← pyNum (safe_get today
    [PyKey.s "temp", PyKey.s "min"] (Val.vInt 0)))) ++ u.temp
  let tmax := toString (pyRound (← pyNum (safe_get today
    [PyKey.s "temp", PyKey.s "max"] (Val.vInt 0)))) ++ u.temp
  let pop := pop_pct (← popArgE (← pyGet today "pop" Val.vNone))
  let rainMM ← pyNum (pyOr (← pyGet today "rain" (Val.vRat 0)) (Val.vRat 0))
  let snowMM ← pyNum (pyOr (← pyGet today "snow" (Val.vRat 0)) (Val.vRat 0))
  let rainTxt := if u.precip = "in" then fmtFixed (mm_to_inches rainMM) 2 ++ " in"
    else fmtFixed rainMM 1 ++ " mm"
  let snowTxt := if u.precip = "in" then fmtFixed (mm_to_inches snowMM) 2 ++ " in"
    else fmtFixed snowMM 1 ++ " mm"
  let sunrise := strf "%-I:%M %p" (← pyIntC (← pyGet today "sunrise" (Val.vInt 0)))
  let sunset := strf "%-I:%M %p" (← pyIntC (← pyGet today "sunset" (Val.vInt 0)))
  let moon := moon_label (← pyNum (← pyGet today "moon_phase" (Val.vRat 0)))
  return emoji ++ " Today: " ++ desc ++ ". High " ++ tmax ++ ", low " ++ tmin ++
    ". POP " ++ pop ++ "; rain " ++ rainTxt ++ ", snow " ++ snowTxt ++
    ". Sunrise " ++ sunrise ++ ", sunset " ++ sunset ++ ". " ++ moon ++ "."

/-- The (dedented, stripped) HTML wrapper of the Today block. -/
def today_html_of (line : String) : String :=
  "<h3 style=\"margin:0.8rem 0 0.2rem 0\">Today</h3>\n<p style=\"margin:0.2rem 0\">\n  " ++
    html_escape line ++ "\n</p>"

/-- Embeds `build_today_block` (source lines 238-273). -/
def build_today_block (today : Val) (units tz_name : String)
    (strf : String → ℤ → String) : Except PyErr (String × String) := do
  let line ← build_today_line today units strf
  return (today_html_of line, line)

/-- Embeds `"".join(parts)`. -/
def strJoin (l : List String) : String := String.mk (l.flatMap String.data)

/-- Embeds `sep.join(parts)`. -/
def strJoinSep (sep : String) : List String → String
  | [] => ""
  | [s] => s
  | s :: rest => s ++ sep ++ strJoinSep sep rest

/-- The six cell strings of one hourly row (source lines 291-304),
computed once and rendered into both the HTML and the text row. -/
structure RowData where
  t : String
  temp : String
  pop : String
  rain : String
  snow : String
  wdesc : String
deriving DecidableEq

/-- Embeds the per-hour body of the loop in `build_hours_table`. -/
def hour_row (h : Val) (u : UnitLabels) (strf : String → ℤ → String) :
    Except PyErr RowData := do
  let t := strf "%-I %p" (← pyIntC (← pyGetItem h "dt"))
  let temp := toString (pyRound (← pyNum (← pyGet h "temp" (Val.vInt 0)))) ++ u.temp
  let pop := pop_pct (← popArgE (← pyGet h "pop" Val.vNone))
  let wdesc := pyTitle (← asStrE (safe_get h
    [PyKey.s "weather", PyKey.i 0, PyKey.s "description"] (Val.vStr "")))
  let rain ← pyNum (pyOr (safe_get h [PyKey.s "rain", PyKey.s "1h"] (Val.vRat 0))
    (Val.vRat 0))
  let snow ← pyNum (pyOr (safe_get h [PyKey.s "snow", PyKey.s "1h"] (Val.vRat 0))
    (Val.vRat 0))
  let rainTxt := if u.precip = "in" then fmtFixed (mm_to_inches rain) 2
    else fmtFixed rain 1
  let snowTxt := if u.precip = "in" then fmtFixed (mm_to_inches snow) 2
    else fmtFixed snow 1
  return ⟨t, temp, pop, rainTxt, snowTxt, wdesc⟩

/-- The HTML `<tr>` of one hourly row (source lines 306-315). -/
def hour_row_html (r : RowData) : String :=
  "<tr><td>" ++ html_escape r.t ++ "</td><td align='right'>" ++
    html_escape r.temp ++ "</td><td align='right'>" ++ html_escape r.pop ++
    "</td><td align='right'>" ++ html_escape r.rain ++
    "</td><td align='right'>" ++ html_escape r.snow ++ "</td><td>" ++
    html_escape r.wdesc ++ "</td></tr>"

/-- The text row of one hourly slot (source lines 316-319). -/
def hour_row_text (r : RowData) : String :=
  padLeft r.t 4 ++ "  " ++ padLeft r.temp 6 ++ "  " ++ padLeft r.pop 4 ++
    "  rain " ++ padLeft r.rain 5 ++ "  snow " ++ padLeft r.snow 5 ++ "  " ++ r.wdesc

/-- The header row of the hours table (source lines 280-289). -/
def hours_header_html : String :=
  "<tr><th align='left'>Time</th><th align='right'>Temp</th>" ++
    "<th align='right'>POP</th><th align='right'>Rain</th>" ++
    "<th align='right'>Snow</th><th align='left'>Desc</th></tr>"

/-- The `<table>` element of the hours block (source lines 321-327). -/
def hours_table_html (rows : List RowData) : String :=
  "<table cellpadding='4' cellspacing='0' " ++
    "style='border-collapse:collapse;border:1px solid #ddd;font-family:system-ui'>" ++
    hours_header_html ++ strJoin (rows.map hour_row_html) ++ "</table>"

/-- The text rendering of the hours block (source line 328). -/
def hours_text (rows : List RowData) : String :=
  "Time  Temp   POP   Rain   Snow  Description\n" ++
    strJoinSep "\n" (rows.map hour_row_text)

/-- Embeds `build_hours_table` (source lines 276-330). -/
def build_hours_table (hours : List Val) (units tz_name : String) (limit : ℕ)
    (strf : String → ℤ → String) : Except PyErr (String × String) := do
  let u := fmt_units units
  let rows ← (hours.take limit).mapM (fun h => hour_row h u strf)
  return ("<h3 style='margin:0.8rem 0 0.2rem 0'>Next " ++ toString limit ++
      " hours</h3>" ++ hours_table_html rows,
    hours_text rows)

/-- The six strings of one daily item (source lines 337-344), computed
once and rendered into both the HTML and the text item. -/
structure DayData where
  name : String
  tmin : String
  tmax : String
  pop : String
  desc : String
  emoji : String
deriving DecidableEq

/-- Embeds the per-day body of the loop in `build_days_list`. -/
def day_item (d : Val) (u : UnitLabels) (strf : String → ℤ → String) :
    Except PyErr DayData := do
  let name := strf "%a" (← pyIntC (← pyGetItem d "dt"))
  let tmin := toString (pyRound (← pyNum (safe_get d
    [PyKey.s "temp", PyKey.s "min"] (Val.vInt 0)))) ++ u.temp
  let tmax := toString (pyRound (← pyNum (safe_get d
    [PyKey.s "temp", PyKey.s "max"] (Val.vInt 0)))) ++ u.temp
  let pop := pop_pct (← popArgE (← pyGet d "pop" Val.vNone))
  let desc := pyTitle (← asStrE (safe_get d
    [PyKey.s "weather", PyKey.i 0, PyKey.s "description"] (Val.vStr "")))
  let code ← pyIntC (safe_get d
    [PyKey.s "weather", PyKey.i 0, PyKey.s "id"] (Val.vInt 800))
  return ⟨name, tmin, tmax, pop, desc, weather_emoji code⟩

/-- The HTML `<li>` of one daily item (source lines 345-349). -/
def day_item_html (d : DayData) : String :=
  "<li><b>" ++ html_escape d.name ++ "</b>: " ++ html_escape d.emoji ++ " " ++
    html_escape d.desc ++ " — " ++ html_escape d.tmin ++ " / " ++
    html_escape d.tmax ++ " (POP " ++ html_escape d.pop ++ ")</li>"

/-- The text line of one daily item (source line 350). -/
def day_item_text (d : DayData) : String :=
  d.name ++ ": " ++ d.desc ++ " — " ++ d.tmin ++ "/" ++ d.tmax ++
    " (POP " ++ d.pop ++ ")"

/-- The `<ul>` of the days block (source lines 351-354). -/
def days_list_html (items : List DayData) : String :=
  "<ul style='margin:0.2rem 0 0 1rem'>" ++
    strJoin (items.map day_item_html) ++ "</ul>"

/-- The text rendering of the days block (source line 355). -/
def days_text (items : List DayData) : String :=
  "Next days:\n- " ++ strJoinSep "\n- " (items.map day_item_text)

/-- Embeds `build_days_list` (source lines 333-356). -/
def build_days_list (days : List Val) (units tz_name : String) (limit : ℕ)
    (strf : String → ℤ → String) : Except PyErr (String × String) := do
  let u := fmt_units units
  let items ← (days.take limit).mapM (fun d => day_item d u strf)
  return ("<h3 style='margin:0.8rem 0 0.2rem 0'>Next " ++ toString limit ++
      " days</h3>" ++ days_list_html items,
    days_text items)

/-- Embeds the per-alert body of the loop in `build_alerts_section`
(source lines 364-375). -/
def alert_item (a : Val) (strf : String → ℤ → String) :
    Except PyErr (String × String) := do
  let event := pyStr (← pyGet a "event" (Val.vStr "Alert"))
  let start := strf "%a %-I:%M %p" (← pyIntC (← pyGet a "start" (Val.vInt 0)))
  let stop := strf "%a %-I:%M %p" (← pyIntC (← pyGet a "end" (Val.vInt 0)))
  let descS ← asStrE (pyOr (← pyGet a "description" Val.vNone) (Val.vStr ""))
  let short := String.mk (((pyStrip descS).data.take 300).map
    (fun c => if c = '\n' then ' ' else c))
  return ("<li><b>" ++ html_escape event ++ "</b> (" ++ html_escape start ++
      " → " ++ html_escape stop ++ "): " ++ html_escape short ++ "...</li>",
    event ++ " (" ++ start ++ "→" ++ stop ++ "): " ++ short ++ "...")

/-- Embeds `build_alerts_section` (source lines 359-381). -/
def build_alerts_section (alerts : Val) (tz_name : String)
    (strf : String → ℤ → String) : Except PyErr (String × String) := do
  if pyTruthy alerts = false then
    return ("", "")
  else
    let xs ← pyList alerts
    let items ← xs.mapM (fun a => alert_item a strf)
    return ("<h3 style='margin:1rem 0 0.2rem 0'>⚠️ Alerts</h3>" ++
        "<ul style='margin:0.2rem 0 0 1rem'>" ++
        String.join (items.map Prod.fst) ++ "</ul>",
      "ALERTS:\n- " ++ String.intercalate "\n- " (items.map Prod.snd))

/-- Embeds `build_aqi_section` (source lines 384-402). -/
def build_aqi_section (aqiJson : Val) : Except PyErr (String × String) := do
  if pyTruthy aqiJson = false then
    return ("", "")
  else
    let first := safe_get aqiJson [PyKey.s "list", PyKey.i 0] (Val.vDict [])
    let aqiVal := safe_get first [PyKey.s "main", PyKey.s "aqi"] Val.vNone
    let aqiOpt ← match aqiVal with
      | Val.vNone => Except.ok (Option.none (α := ℤ))
      | w => (pyIntC w).map some
    let lbl := aqi_label aqiOpt
    let comps ← pyGet first "components" (Val.vDict [])
    let fine ← pyGet comps "pm2_5" Val.vNone
    let coarse ← pyGet comps "pm10" Val.vNone
    return ("<h3 style=\"margin:0.8rem 0 0.2rem 0\">Air quality</h3>\n" ++
        "<p style=\"margin:0.2rem 0\">\n  AQI: <b>" ++ html_escape lbl ++
        "</b> (" ++ html_escape (pyStr aqiVal) ++ ").\n  PM2.5: " ++
        html_escape (pyStr fine) ++ " µg/m³; PM10: " ++
        html_escape (pyStr coarse) ++ " µg/m³.\n</p>",
      "AQI " ++ lbl ++ " (" ++ pyStr aqiVal ++ "). PM2.5 " ++ pyStr fine ++
        " µg/m³; PM10 " ++ pyStr coarse ++ " µg/m³.")

/- ---------- main (source lines 407-504) ---------- -/

/-- Result of one composing run of `main` after the forecast has been
fetched: the composed message and whether `send_email` was reached
(`main` always hands the composed payload to `send_email`; there is no
gate in the script). -/
structure RunOut where
  subject : String
  htmlBody : String
  textBody : String
  sendInvoked : Bool
deriving DecidableEq

/-- The (dedented, stripped) HTML header of the body (source lines
459-468). -/
def header_html (geoName units : String) : String :=
  "<div style=\"font:14px/1.4 system-ui, -apple-system, 'Segoe UI', Roboto, sans-serif;\n" ++
    "            color:#111; max-width:780px\">\n  <h2 style=\"margin:0.2rem 0 0.8rem 0\">\n    " ++
    html_escape geoName ++ " — Daily Weather Outlook\n  </h2>\n" ++
    "  <p style=\"margin:0 0 0.6rem 0; color:#666\">\n    " ++
    "Source: OpenWeather One Call 3.0 · Units: " ++ html_escape units ++ "\n  </p>"

/-- Embeds the composing tail of `main` (source lines 434-504), from the
decoded forecast payload onward: compose every block, then always invoke
`send_email` with the assembled subject and bodies.  `aqiJson` is the
air-pollution response (or `None`), `strf` the machine-local time
formatter (see `build_today_line`), `subjPre` the subject prefix. -/
def mainRun (data : Val) (units : String) (hoursN daysN : ℕ) (withAir : Bool)
    (aqiJson : Val) (subjPre geoName : String)
    (strf : String → ℤ → String) : Except PyErr RunOut := do
  let tzName := pyStr (← pyGet data "timezone" (Val.vStr "local time"))
  let nowPair ← build_now_block (← pyGet data "current" (Val.vDict [])) units
  let todayPair ← build_today_block (← pyIndex (← pyGetItem data "daily") 0)
    units tzName strf
  let hoursPair ← build_hours_table (← pyList (← pyGet data "hourly" (Val.vList [])))
    units tzName hoursN strf
  let daysPair ← build_days_list
    ((← pyList (← pyGet data "daily" (Val.vList []))).drop 1) units tzName daysN strf
  let alertsPair ← build_alerts_section (← pyGet data "alerts" Val.vNone) tzName strf
  let aqiPair ← if withAir then build_aqi_section aqiJson else pure ("", "")
  let curDt ← pyIntC (← pyGet (← pyGet data "current" (Val.vDict [])) "dt" (Val.vInt 0))
  let subject := subjPre ++ geoName ++ " — Daily Outlook (" ++ strf "%a %b %-d" curDt ++ ")"
  let htmlBody := header_html geoName units ++ "\n" ++ nowPair.1 ++ "\n" ++
    todayPair.1 ++ "\n" ++ hoursPair.1 ++ "\n" ++ daysPair.1 ++
    (if alertsPair.1 ≠ "" then "\n" ++ alertsPair.1 else "") ++
    (if aqiPair.1 ≠ "" then "\n" ++ aqiPair.1 else "") ++ "\n</div>"
  let textBody := String.intercalate "\n"
    [geoName ++ " — Daily Weather Outlook", "Units: " ++ units, "",
      nowPair.2, todayPair.2, "", hoursPair.2, "", daysPair.2, "",
      if alertsPair.2 ≠ "" then alertsPair.2 else "",
      if aqiPair.2 ≠ "" then aqiPair.2 else ""]
  return ⟨subject, htmlBody, textBody, true⟩

/- ---------- numeric-token extraction (C9's verification device) ---------- -/

/-- A character that participates in a numeric token: a digit or a
decimal point. -/
def numChar (c : Char) : Bool := c.isDigit || c == '.'

/-- Emit the pending (reversed) token, if any. -/
def flushTok (acc : List Char) : List (List Char) :=
  if acc.isEmpty then [] else [acc.reverse]

/-- Accumulating scanner for maximal runs of numeric characters. -/
def tokA : List Char → List Char → List (List Char)
  | [], acc => flushTok acc
  | c :: cs, acc =>
    if numChar c then tokA cs (c :: acc) else flushTok acc ++ tokA cs []

/-- The numeric tokens of a string, in order. -/
def tokensOf (s : String) : List (List Char) := tokA s.data []

/-- Tag-removal scanner: every `<…>` tag is replaced by one space (as a
tag boundary separates rendered cells), text outside tags is kept. -/
def stripA : Bool → List Char → List Char
  | _, [] => []
  | false, c :: cs => if c == '<' then ' ' :: stripA true cs else c :: stripA false cs
  | true, c :: cs => if c == '>' then stripA false cs else stripA true cs

/-- Strip the markup of an HTML fragment, leaving its rendered text. -/
def stripTags (s : String) : String := String.mk (stripA false s.data)

/-- The string contains no apostrophe (the one character whose HTML
escape, `&#x27;`, introduces digits of its own). -/
def noApos (s : String) : Prop := '\'' ∉ s.data

/-- All four noApos fields plus the time/desc fields of an hourly row. -/
def rowClean (r : RowData) : Prop :=
  noApos r.t ∧ noApos r.temp ∧ noApos r.pop ∧ noApos r.rain ∧
    noApos r.snow ∧ noApos r.wdesc

/-- Cleanliness of a daily item: no apostrophes, and the emoji carries
no numeric characters (it is dropped from the text rendering). -/
def dayClean (d : DayData) : Prop :=
  noApos d.name ∧ noApos d.tmin ∧ noApos d.tmax ∧ noApos d.pop ∧
    noApos d.desc ∧ noApos d.emoji ∧ tokensOf d.emoji = []

lemma flushTok_nil : flushTok [] = [] := rfl

lemma tokA_cons_nonnum {c : Char} (hc : numChar c = false) (cs acc) :
    tokA (c :: cs) acc = flushTok acc ++ tokA cs [] := by
  simp [tokA, hc]

lemma tokA_cons_nonnum_nil {c : Char} (hc : numChar c = false) (cs) :
    tokA (c :: cs) [] = tokA cs [] := by
  simp [tokA_cons_nonnum hc, flushTok_nil]

lemma tokA_pre {m : List Char} (hnum : ∀ c ∈ m, numChar c = false) (b : List Char) :
    tokA (m ++ b) [] = tokA b [] := by
  induction m with
  | nil => rfl
  | cons c cs ih =>
    rw [List.cons_append, tokA_cons_nonnum_nil (hnum c (by simp))]
    exact ih (fun x hx => hnum x (by simp [hx]))

lemma tokA_append_sep {s : Char} (hs : numChar s = false) (b : List Char) :
    ∀ (a acc), tokA (a ++ s :: b) acc = tokA a acc ++ tokA b [] := by
  intro a
  induction a with
  | nil =>
    intro acc
    simp [tokA, hs]
  | cons c cs ih =>
    intro acc
    by_cases hc : numChar c
    · simp only [List.cons_append, tokA, hc, if_true]
      exact ih (c :: acc)
    · simp only [List.cons_append, tokA, hc, Bool.false_eq_true, if_false]
      rw [show cs.append (s :: b) = cs ++ s :: b from rfl, ih [], List.append_assoc]

lemma tokA_chunk {m : List Char} (hm : m ≠ []) (hnum : ∀ c ∈ m, numChar c = false)
    (r acc : List Char) : tokA (m ++ r) acc = flushTok acc ++ tokA r [] := by
  cases m with
  | nil => exact absurd rfl hm
  | cons c cs =>
    rw [List.cons_append, tokA_cons_nonnum (hnum c (by simp))]
    rw [tokA_pre (fun x hx => hnum x (by simp [hx]))]

lemma tokA_sepStr {m : List Char} (hm : m ≠ []) (hnum : ∀ c ∈ m, numChar c = false)
    (a b acc : List Char) : tokA (a ++ (m ++ b)) acc = tokA a acc ++ tokA b [] := by
  cases m with
  | nil => exact absurd rfl hm
  | cons s m' =>
    rw [List.cons_append, tokA_append_sep (hnum s (by simp)) (m' ++ b) a acc]
    rw [tokA_pre (fun x hx => hnum x (by simp [hx]))]

lemma tokA_end {m : List Char} (hm : m ≠ []) (hnum : ∀ c ∈ m, numChar c = false)
    (a acc : List Char) : tokA (a ++ m) acc = tokA a acc := by
  induction a generalizing acc with
  | nil =>
    rw [List.nil_append]
    have h2 := tokA_chunk hm hnum [] acc
    simp only [List.append_nil] at h2
    simpa [tokA, flushTok] using h2
  | cons c cs ih =>
    by_cases hc : numChar c
    · simp only [List.cons_append, tokA, hc, if_true]
      exact ih (c :: acc)
    · simp only [List.cons_append, tokA, hc, Bool.false_eq_true, if_false]
      rw [show cs.append m = cs ++ m from rfl, ih []]

lemma escList_cons (c : Char) (cs : List Char) :
    escList (c :: cs) = escapeChar c ++ escList cs := by
  simp [escList]

lemma tokA_escList {l : List Char} (h : '\'' ∉ l) :
    ∀ acc, tokA (escList l) acc = tokA l acc := by
  induction l with
  | nil =>
    intro acc
    rfl
  | cons c cs ih =>
    intro acc
    have hcq : c ≠ '\'' := fun he => h (by simp [he])
    have hcs : '\'' ∉ cs := fun hm => h (by simp [hm])
    rw [escList_cons]
    by_cases h1 : c = '&'
    · subst h1
      rw [show escapeChar '&' = "&amp;".data from rfl,
        tokA_chunk (by decide) (by decide), ih hcs [],
        tokA_cons_nonnum (by decide)]
    by_cases h2 : c = '<'
    · subst h2
      rw [show escapeChar '<' = "&lt;".data from rfl,
        tokA_chunk (by decide) (by decide), ih hcs [],
        tokA_cons_nonnum (by decide)]
    by_cases h3 : c = '>'
    · subst h3
      rw [show escapeChar '>' = "&gt;".data from rfl,
        tokA_chunk (by decide) (by decide), ih hcs [],
        tokA_cons_nonnum (by decide)]
    by_cases h4 : c = '"'
    · subst h4
      rw [show escapeChar '"' = "&quot;".data from rfl,
        tokA_chunk (by decide) (by decide), ih hcs [],
        tokA_cons_nonnum (by decide)]
    have he : escapeChar c = [c] := by
      simp [escapeChar, h1, h2, h3, h4, hcq]
    rw [he, List.singleton_append]
    by_cases hc : numChar c
    · simp only [tokA, hc, if_true]
      exact ih hcs (c :: acc)
    · simp only [tokA, hc, Bool.false_eq_true, if_false]
      rw [ih hcs []]

lemma escList_no_lt (l : List Char) : '<' ∉ escList l := by
  induction l with
  | nil => simp [escList]
  | cons c cs ih =>
    rw [escList_cons]
    simp only [List.mem_append]
    rintro (h | h)
    · unfold escapeChar at h
      split_ifs at h with g1 g2 g3 g4 g5 <;> simp_all
      exact g2 h.symm
    · exact ih h

lemma stripA_copy {a : List Char} (ha : '<' ∉ a) (b : List Char) :
    stripA false (a ++ b) = a ++ stripA false b := by
  induction a with
  | nil => rfl
  | cons c cs ih =>
    have hc : (c == '<') = false := by
      simp only [beq_eq_false_iff_ne, ne_eq]
      exact fun he => ha (by simp [he])
    rw [List.cons_append,
      show stripA false (c :: (cs ++ b)) = c :: stripA false (cs ++ b) from by
        simp [stripA, hc],
      ih (fun hm => ha (by simp [hm])), List.cons_append]

lemma data_escape (s : String) : (html_escape s).data = escList s.data := rfl

lemma data_mk (l : List Char) : (String.mk l).data = l := rfl

lemma data_strJoin (l : List String) : (strJoin l).data = l.flatMap String.data := rfl

lemma replicate_space_nonnum (n : ℕ) :
    ∀ c ∈ List.replicate n ' ', numChar c = false := by
  intro c hc
  rw [List.eq_of_mem_replicate hc]
  rfl

/-- The numeric tokens of one hourly row's six cells, in cell order. -/
def tokFields (r : RowData) : List (List Char) :=
  tokensOf r.t ++ tokensOf r.temp ++ tokensOf r.pop ++ tokensOf r.rain ++
    tokensOf r.snow ++ tokensOf r.wdesc

lemma hour_row_text_tokens (r : RowData) :
    tokensOf (hour_row_text r) = tokFields r := by
  unfold tokensOf hour_row_text padLeft tokFields tokensOf
  simp only [String.data_append, data_mk, List.append_assoc]
  rw [tokA_pre (replicate_space_nonnum _),
    tokA_sepStr (m := "  ".data) (by decide) (by decide),
    tokA_pre (replicate_space_nonnum _),
    tokA_sepStr (m := "  ".data) (by decide) (by decide),
    tokA_pre (replicate_space_nonnum _),
    tokA_sepStr (m := "  rain ".data) (by decide) (by decide),
    tokA_pre (replicate_space_nonnum _),
    tokA_sepStr (m := "  snow ".data) (by decide) (by decide),
    tokA_pre (replicate_space_nonnum _),
    tokA_sepStr (m := "  ".data) (by decide) (by decide)]

lemma hour_row_html_strip (r : RowData) (b : List Char) :
    stripA false ((hour_row_html r).data ++ b) =
      "  ".data ++ (escList r.t.data ++ ("  ".data ++ (escList r.temp.data ++
        ("  ".data ++ (escList r.pop.data ++ ("  ".data ++ (escList r.rain.data ++
        ("  ".data ++ (escList r.snow.data ++ ("  ".data ++ (escList r.wdesc.data ++
        ("  ".data ++ stripA false b)))))))))))) := by
  unfold hour_row_html
  simp only [String.data_append, data_escape, data_mk, List.append_assoc]
  rw [show ∀ x, stripA false ("<tr><td>".data ++ x) = "  ".data ++ stripA false x
      from fun x => rfl,
    stripA_copy (escList_no_lt _),
    show ∀ x, stripA false ("</td><td align='right'>".data ++ x) =
        "  ".data ++ stripA false x from fun x => rfl,
    stripA_copy (escList_no_lt _),
    show ∀ x, stripA false ("</td><td align='right'>".data ++ x) =
        "  ".data ++ stripA false x from fun x => rfl,
    stripA_copy (escList_no_lt _),
    show ∀ x, stripA false ("</td><td align='right'>".data ++ x) =
        "  ".data ++ stripA false x from fun x => rfl,
    stripA_copy (escList_no_lt _),
    show ∀ x, stripA false ("</td><td align='right'>".data ++ x) =
        "  ".data ++ stripA false x from fun x => rfl,
    stripA_copy (escList_no_lt _),
    show ∀ x, stripA false ("</td><td>".data ++ x) = "  ".data ++ stripA false x
      from fun x => rfl,
    stripA_copy (escList_no_lt _),
    show ∀ x, stripA false ("</td></tr>".data ++ x) = "  ".data ++ stripA false x
      from fun x => rfl]

lemma hour_row_html_tokens (r : RowData) (hc : rowClean r) (b : List Char) :
    tokA (stripA false ((hour_row_html r).data ++ b)) [] =
      tokFields r ++ tokA (stripA false b) [] := by
  obtain ⟨c1, c2, c3, c4, c5, c6⟩ := hc
  rw [hour_row_html_strip,
    show ∀ x, tokA ("  ".data ++ x) [] = tokA x [] from fun x => rfl,
    tokA_sepStr (m := "  ".data) (by decide) (by decide), tokA_escList c1 [],
    tokA_sepStr (m := "  ".data) (by decide) (by decide), tokA_escList c2 [],
    tokA_sepStr (m := "  ".data) (by decide) (by decide), tokA_escList c3 [],
    tokA_sepStr (m := "  ".data) (by decide) (by decide), tokA_escList c4 [],
    tokA_sepStr (m := "  ".data) (by decide) (by decide), tokA_escList c5 [],
    tokA_sepStr (m := "  ".data) (by decide) (by decide), tokA_escList c6 []]
  simp [tokFields, tokensOf, List.append_assoc]

lemma hours_rows_html_tokens (rows : List RowData)
    (hc : ∀ r ∈ rows, rowClean r) (b : List Char) :
    tokA (stripA false ((strJoin (rows.map hour_row_html)).data ++ b)) [] =
      rows.flatMap tokFields ++ tokA (stripA false b) [] := by
  induction rows with
  | nil => simp [strJoin]
  | cons r rest ih =>
    rw [List.map_cons,
      show (strJoin (hour_row_html r :: rest.map hour_row_html)).data =
        (hour_row_html r).data ++ (strJoin (rest.map hour_row_html)).data from by
          simp [data_strJoin],
      List.append_assoc, hour_row_html_tokens r (hc r (by simp)),
      ih (fun x hx => hc x (by simp [hx]))]
    simp [List.append_assoc]

lemma strJoinSep_hour_rows_tokens (rows : List RowData) :
    tokA (strJoinSep "\n" (rows.map hour_row_text)).data [] =
      rows.flatMap tokFields := by
  induction rows with
  | nil => rfl
  | cons r rest ih =>
    cases rest with
    | nil =>
      have := hour_row_text_tokens r
      simpa [strJoinSep, tokensOf] using this
    | cons r2 rest2 =>
      rw [List.map_cons,
        show strJoinSep "\n" (hour_row_text r :: (r2 :: rest2).map hour_row_text) =
          hour_row_text r ++ "\n" ++
            strJoinSep "\n" ((r2 :: rest2).map hour_row_text) from rfl]
      rw [String.data_append, String.data_append, List.append_assoc,
        tokA_sepStr (m := "\n".data) (by decide) (by decide)]
      rw [show tokA (hour_row_text r).data [] = tokFields r from
        hour_row_text_tokens r]
      rw [ih]
      simp [List.append_assoc]

lemma hours_table_tokens_eq (rows : List RowData) (hc : ∀ r ∈ rows, rowClean r) :
    tokensOf (stripTags (hours_table_html rows)) = tokensOf (hours_text rows) := by
  unfold tokensOf stripTags hours_table_html hours_text
  simp only [String.data_append, data_mk, List.append_assoc]
  rw [show ∀ x,
      stripA false
        ("<table cellpadding='4' cellspacing='0' ".data ++
          ("style='border-collapse:collapse;border:1px solid #ddd;font-family:system-ui'>".data ++
            (hours_header_html.data ++ x))) =
        "   Time  Temp  POP  Rain  Snow  Desc  ".data ++ stripA false x
      from fun x => rfl,
    show ∀ x, tokA ("   Time  Temp  POP  Rain  Snow  Desc  ".data ++ x) [] =
      tokA x [] from fun x => rfl,
    hours_rows_html_tokens rows hc,
    show tokA (stripA false ("</table>".data)) [] = [] from rfl,
    show ∀ x, tokA ("Time  Temp   POP   Rain   Snow  Description\n".data ++ x) [] =
      tokA x [] from fun x => rfl,
    strJoinSep_hour_rows_tokens rows]
  simp

/-- The numeric tokens of one daily item's fields in HTML order. -/
def dayFields (d : DayData) : List (List Char) :=
  tokensOf d.name ++ tokensOf d.emoji ++ tokensOf d.desc ++ tokensOf d.tmin ++
    tokensOf d.tmax ++ tokensOf d.pop

lemma day_item_text_tokens (d : DayData) (he : tokensOf d.emoji = []) :
    tokensOf (day_item_text d) = dayFields d := by
  unfold tokensOf day_item_text dayFields tokensOf
  simp only [String.data_append, data_mk, List.append_assoc]
  rw [tokA_sepStr (m := ": ".data) (by decide) (by decide),
    tokA_sepStr (m := " — ".data) (by decide) (by decide),
    tokA_sepStr (m := "/".data) (by decide) (by decide),
    tokA_sepStr (m := " (POP ".data) (by decide) (by decide),
    tokA_end (m := ")".data) (by decide) (by decide)]
  have he2 : tokA d.emoji.data [] = [] := he
  simp [he2, List.append_assoc]

lemma day_item_html_strip (d : DayData) (b : List Char) :
    stripA false ((day_item_html d).data ++ b) =
      "  ".data ++ (escList d.name.data ++ (" : ".data ++ (escList d.emoji.data ++
        (" ".data ++ (escList d.desc.data ++ (" — ".data ++ (escList d.tmin.data ++
        (" / ".data ++ (escList d.tmax.data ++ (" (POP ".data ++ (escList d.pop.data ++
        (") ".data ++ stripA false b)))))))))))) := by
  unfold day_item_html
  simp only [String.data_append, data_escape, data_mk, List.append_assoc]
  rw [show ∀ x, stripA false ("<li><b>".data ++ x) = "  ".data ++ stripA false x
      from fun x => rfl,
    stripA_copy (escList_no_lt _),
    show ∀ x, stripA false ("</b>: ".data ++ x) = " : ".data ++ stripA false x
      from fun x => rfl,
    stripA_copy (escList_no_lt _),
    show ∀ x, stripA false (" ".data ++ x) = " ".data ++ stripA false x
      from fun x => rfl,
    stripA_copy (escList_no_lt _),
    show ∀ x, stripA false (" — ".data ++ x) = " — ".data ++ stripA false x
      from fun x => rfl,
    stripA_copy (escList_no_lt _),
    show ∀ x, stripA false (" / ".data ++ x) = " / ".data ++ stripA false x
      from fun x => rfl,
    stripA_copy (escList_no_lt _),
    show ∀ x, stripA false (" (POP ".data ++ x) = " (POP ".data ++ stripA false x
      from fun x => rfl,
    stripA_copy (escList_no_lt _),
    show ∀ x, stripA false (")</li>".data ++ x) = ") ".data ++ stripA false x
      from fun x => rfl]

lemma day_item_html_tokens (d : DayData) (hc : dayClean d) (b : List Char) :
    tokA (stripA false ((day_item_html d).data ++ b)) [] =
      dayFields d ++ tokA (stripA false b) [] := by
  obtain ⟨c1, c2, c3, c4, c5, c6, -⟩ := hc
  rw [day_item_html_strip,
    show ∀ x, tokA ("  ".data ++ x) [] = tokA x [] from fun x => rfl,
    tokA_sepStr (m := " : ".data) (by decide) (by decide), tokA_escList c1 [],
    tokA_sepStr (m := " ".data) (by decide) (by decide), tokA_escList c6 [],
    tokA_sepStr (m := " — ".data) (by decide) (by decide), tokA_escList c5 [],
    tokA_sepStr (m := " / ".data) (by decide) (by decide), tokA_escList c2 [],
    tokA_sepStr (m := " (POP ".data) (by decide) (by decide), tokA_escList c3 [],
    tokA_sepStr (m := ") ".data) (by decide) (by decide), tokA_escList c4 []]
  simp [dayFields, tokensOf, List.append_assoc]

lemma days_items_html_tokens (items : List DayData)
    (hc : ∀ d ∈ items, dayClean d) (b : List Char) :
    tokA (stripA false ((strJoin (items.map day_item_html)).data ++ b)) [] =
      items.flatMap dayFields ++ tokA (stripA false b) [] := by
  induction items with
  | nil => simp [strJoin]
  | cons d rest ih =>
    rw [List.map_cons,
      show (strJoin (day_item_html d :: rest.map day_item_html)).data =
        (day_item_html d).data ++ (strJoin (rest.map day_item_html)).data from by
          simp [data_strJoin],
      List.append_assoc, day_item_html_tokens d (hc d (by simp)),
      ih (fun x hx => hc x (by simp [hx]))]
    simp [List.append_assoc]

lemma strJoinSep_day_items_tokens (items : List DayData)
    (hc : ∀ d ∈ items, dayClean d) :
    tokA (strJoinSep "\n- " (items.map day_item_text)).data [] =
      items.flatMap dayFields := by
  induction items with
  | nil => rfl
  | cons d rest ih =>
    cases rest with
    | nil =>
      have := day_item_text_tokens d (hc d (by simp)).2.2.2.2.2.2
      simpa [strJoinSep, tokensOf] using this
    | cons d2 rest2 =>
      rw [List.map_cons,
        show strJoinSep "\n- " (day_item_text d :: (d2 :: rest2).map day_item_text) =
          day_item_text d ++ "\n- " ++
            strJoinSep "\n- " ((d2 :: rest2).map day_item_text) from rfl]
      rw [String.data_append, String.data_append, List.append_assoc,
        tokA_sepStr (m := "\n- ".data) (by decide) (by decide)]
      rw [show tokA (day_item_text d).data [] = dayFields d from
        day_item_text_tokens d (hc d (by simp)).2.2.2.2.2.2]
      rw [ih (fun x hx => hc x (by simp [hx]))]
      simp [List.append_assoc]

lemma days_list_tokens_eq (items : List DayData) (hc : ∀ d ∈ items, dayClean d) :
    tokensOf (stripTags (days_list_html items)) = tokensOf (days_text items) := by
  unfold tokensOf stripTags days_list_html days_text
  simp only [String.data_append, data_mk, List.append_assoc]
  rw [show ∀ x, stripA false ("<ul style='margin:0.2rem 0 0 1rem'>".data ++ x) =
      " ".data ++ stripA false x from fun x => rfl,
    show ∀ x, tokA (" ".data ++ x) [] = tokA x [] from fun x => rfl,
    days_items_html_tokens items hc,
    show tokA (stripA false ("</ul>".data)) [] = [] from rfl,
    show ∀ x, tokA ("Next days:\n- ".data ++ x) [] = tokA x [] from fun x => rfl,
    strJoinSep_day_items_tokens items hc]
  simp

lemma now_block_tokens (line : String) (h : noApos line) :
    tokensOf (stripTags (now_html_of line)) = tokensOf line := by
  unfold tokensOf stripTags now_html_of
  simp only [String.data_append, data_escape, data_mk, List.append_assoc]
  rw [show ∀ x,
      stripA false
        ("<h3 style=\"margin:0.2rem 0\">Now</h3>\n<p style=\"margin:0.2rem 0\">\n  ".data ++ x) =
        " Now \n \n  ".data ++ stripA false x from fun x => rfl,
    stripA_copy (escList_no_lt _),
    show stripA false ("\n</p>".data) = "\n ".data from rfl,
    show ∀ x, tokA (" Now \n \n  ".data ++ x) [] = tokA x [] from fun x => rfl,
    tokA_end (m := "\n ".data) (by decide) (by decide)]
  exact tokA_escList h []

lemma today_block_tokens (line : String) (h : noApos line) :
    tokensOf (stripTags (today_html_of line)) = tokensOf line := by
  unfold tokensOf stripTags today_html_of
  simp only [String.data_append, data_escape, data_mk, List.append_assoc]
  rw [show ∀ x,
      stripA false
        ("<h3 style=\"margin:0.8rem 0 0.2rem 0\">Today</h3>\n<p style=\"margin:0.2rem 0\">\n  ".data ++ x) =
        " Today \n \n  ".data ++ stripA false x from fun x => rfl,
    stripA_copy (escList_no_lt _),
    show stripA false ("\n</p>".data) = "\n ".data from rfl,
    show ∀ x, tokA (" Today \n \n  ".data ++ x) [] = tokA x [] from fun x => rfl,
    tokA_end (m := "\n ".data) (by decide) (by decide)]
  exact tokA_escList h []

/- ---------- evaluation helpers for concrete runs ---------- -/

lemma bind_ok_elim {α β : Type} {x : Except PyErr α} {f : α → Except PyErr β}
    {b : β} (h : x >>= f = Except.ok b) :
    ∃ a, x = Except.ok a ∧ f a = Except.ok b := by
  cases x with
  | error e => simp [Bind.bind, Except.bind] at h
  | ok a => exact ⟨a, rfl, by simpa [Bind.bind, Except.bind] using h⟩

lemma pyRound_zero : pyRound (0 : ℚ) = 0 := by
  have := pyRound_intCast 0
  simpa using this

lemma deg_to_compass_zero : deg_to_compass (0 : ℚ) = "N" := by
  rw [deg_to_compass_eval (n := 0) (by norm_num) (by norm_num) (by norm_num)]
  decide

lemma moon_label_zero : moon_label (0 : ℚ) = "🌑 New" := by
  rw [moon_label_eq]
  simp

lemma mm_to_inches_zero : mm_to_inches 0 = 0 := by
  unfold mm_to_inches
  norm_num

lemma fmtFixed_zero_two : fmtFixed 0 2 = "0.00" := by
  simp only [fmtFixed]
  rw [show ((0 : ℚ) * (10 : ℚ) ^ (2 : ℕ)) = (((0 : ℤ) : ℚ)) from by norm_num,
    pyRound_intCast]
  decide

lemma pyTruthy_vRat_zero : pyTruthy (Val.vRat 0) = false := by
  simp [pyTruthy]

lemma pyOr_vRat_zero : pyOr (Val.vRat 0) (Val.vRat 0) = Val.vRat 0 := by
  simp [pyOr, pyTruthy_vRat_zero]

/-- Value of the Now line over an entirely defaulted `current` dict. -/
lemma now_line_empty :
    build_now_line (Val.vDict []) "imperial" =
      Except.ok "☀️ . Temp 0°F, feels 0°F. Wind 0 mph N. Humidity 0%. UV 0. Clouds 0%." := by
  simp only [build_now_line, bind, Except.bind, pure, Except.pure, pyGet, pyIntC,
    pyNum, asStrE, safe_get, lookup, List.find?, Option.getD, Option.map, fmt_units,
    Int.cast_zero, pyRound_zero, deg_to_compass_zero]
  exact congrArg Except.ok (by decide)

/-- Value of the Today line over an entirely defaulted first daily entry. -/
lemma today_line_empty :
    build_today_line (Val.vDict []) "imperial" (fun _ _ => "5 PM") =
      Except.ok "☀️ Today: . High 0°F, low 0°F. POP   0%; rain 0.00 in, snow 0.00 in. Sunrise 5 PM, sunset 5 PM. 🌑 New." := by
  simp only [build_today_line, bind, Except.bind, pure, Except.pure, pyGet, pyIntC,
    pyNum, asStrE, popArgE, safe_get, lookup, List.find?, Option.getD, Option.map,
    fmt_units, Int.cast_zero, pyRound_zero, pop_pct_none_eval, pyOr_vRat_zero,
    mm_to_inches_zero, fmtFixed_zero_two, moon_label_zero]
  exact congrArg Except.ok (by decide)

/-- Value of one hourly row over a slot carrying only its timestamp. -/
lemma hour_row_dt0 :
    hour_row (Val.vDict [(PyKey.s "dt", Val.vInt 0)]) (fmt_units "imperial")
      (fun _ _ => "5 PM") =
      Except.ok ⟨"5 PM", "0°F", "  0%", "0.00", "0.00", ""⟩ := by
  simp [hour_row, bind, Except.bind, pure, Except.pure, pyGet, pyGetItem,
    pyIntC, pyNum, asStrE, popArgE, safe_get, lookup, List.find?, Option.getD,
    Option.map, fmt_units, Int.cast_zero, pyRound_zero, pop_pct_none_eval,
    pyOr_vRat_zero, mm_to_inches_zero, fmtFixed_zero_two]
  decide

/-- Value of one daily item over a day carrying only its timestamp. -/
lemma day_item_dt0 :
    day_item (Val.vDict [(PyKey.s "dt", Val.vInt 0)]) (fmt_units "imperial")
      (fun _ _ => "5 PM") =
      Except.ok ⟨"5 PM", "0°F", "0°F", "  0%", "", "☀️"⟩ := by
  simp [day_item, bind, Except.bind, pure, Except.pure, pyGet, pyGetItem,
    pyIntC, pyNum, asStrE, popArgE, safe_get, lookup, List.find?, Option.getD,
    Option.map, fmt_units, Int.cast_zero, pyRound_zero, pop_pct_none_eval]
  decide

/- ---------- C5 : input-error handling of main ---------- -/

/-- C5 counterexample: a payload entirely missing `current` (here:
`{"daily": [{}]}`) does not raise — `main` substitutes the empty dict,
composes a fully defaulted notification and still hands it to
`send_email`. -/
theorem main_missing_current_sends :
    ∃ out, mainRun (Val.vDict [(PyKey.s "daily", Val.vList [Val.vDict []])])
      "imperial" 2 2 false Val.vNone "" "Loc" (fun _ _ => "5 PM") =
      Except.ok out ∧ out.sendInvoked = true := by
  simp only [mainRun, build_now_block, build_today_block, bind, Except.bind,
    pure, Except.pure, pyGet, pyGetItem, pyIndex, pyList, lookup, List.find?,
    Option.getD, Option.map, now_line_empty, today_line_empty]
  simp [build_hours_table, build_days_list, build_alerts_section, pyTruthy,
    bind, Except.bind, pure, Except.pure, pyGet, pyIntC, pyStr, lookup,
    List.find?, List.get?]
  exact ⟨_, rfl, rfl⟩

/-- C5 (amended): a payload whose dict lacks the `daily` key makes the
run fail with `KeyError("daily")` — an error naming the missing field —
and one with an empty `daily` sequence fails with `IndexError`; in both
runs nothing is dispatched, since `send_email` is only reached on
successful composition (third conjunct: every successful run has
invoked it).  A payload missing `current`, however, is NOT an error:
`current` is defaulted to the empty dict (see the counterexample). -/
theorem main_input_errors
    (units subjPre geoName : String) (hoursN daysN : ℕ) (withAir : Bool)
    (aqiJson : Val) (strf : String → ℤ → String)
    (kvs curKvs : List (PyKey × Val)) (nowLine : String)
    (hcur : lookup kvs (PyKey.s "current") = some (Val.vDict curKvs))
    (hnow : build_now_line (Val.vDict curKvs) units = Except.ok nowLine) :
    (lookup kvs (PyKey.s "daily") = none →
      mainRun (Val.vDict kvs) units hoursN daysN withAir aqiJson subjPre geoName strf =
        Except.error (PyErr.keyError (PyKey.s "daily"))) ∧
    (lookup kvs (PyKey.s "daily") = some (Val.vList []) →
      mainRun (Val.vDict kvs) units hoursN daysN withAir aqiJson subjPre geoName strf =
        Except.error PyErr.indexError) ∧
    (∀ (data : Val) (out : RunOut),
      mainRun data units hoursN daysN withAir aqiJson subjPre geoName strf =
        Except.ok out → out.sendInvoked = true) := by
  refine ⟨?_, ?_, ?_⟩
  · intro hd
    simp only [mainRun, build_now_block, bind, Except.bind, pure, Except.pure,
      pyGet, pyGetItem, hcur, hnow, hd, Option.getD]
  · intro hd
    simp only [mainRun, build_now_block, bind, Except.bind, pure, Except.pure,
      pyGet, pyGetItem, pyIndex, hcur, hnow, hd, Option.getD, List.get?]
  · intro data out h
    rw [mainRun] at h
    repeat obtain ⟨_, -, h⟩ := bind_ok_elim h
    cases withAir
    · rw [if_neg (by simp)] at h
      repeat obtain ⟨_, -, h⟩ := bind_ok_elim h
      simp only [pure, Except.pure] at h
      injection h with h2
      subst h2
      rfl
    · rw [if_pos rfl] at h
      repeat obtain ⟨_, -, h⟩ := bind_ok_elim h
      simp only [pure, Except.pure] at h
      injection h with h2
      subst h2
      rfl

/-- Witness for C5 at the minimal payload `{"current": {}}` with no
`daily` key. -/
theorem main_input_errors_witness :
    (lookup [(PyKey.s "current", Val.vDict [])] (PyKey.s "daily") = none →
      mainRun (Val.vDict [(PyKey.s "current", Val.vDict [])]) "imperial" 2 2 false
        Val.vNone "" "Loc" (fun _ _ => "5 PM") =
        Except.error (PyErr.keyError (PyKey.s "daily"))) ∧
    (lookup [(PyKey.s "current", Val.vDict [])] (PyKey.s "daily") =
        some (Val.vList []) →
      mainRun (Val.vDict [(PyKey.s "current", Val.vDict [])]) "imperial" 2 2 false
        Val.vNone "" "Loc" (fun _ _ => "5 PM") =
        Except.error PyErr.indexError) ∧
    (∀ (data : Val) (out : RunOut),
      mainRun data "imperial" 2 2 false Val.vNone "" "Loc" (fun _ _ => "5 PM") =
        Except.ok out → out.sendInvoked = true) :=
  main_input_errors "imperial" "" "Loc" 2 2 false Val.vNone (fun _ _ => "5 PM")
    [(PyKey.s "current", Val.vDict [])] [] _ rfl now_line_empty

/- ---------- C9 : the two bodies agree on numeric tokens ---------- -/

lemma build_now_block_shape {cur : Val} {units : String} {p : String × String}
    (h : build_now_block cur units = Except.ok p) : p.1 = now_html_of p.2 := by
  rw [build_now_block] at h
  obtain ⟨line, -, h2⟩ := bind_ok_elim h
  simp only [pure, Except.pure, Except.ok.injEq] at h2
  rw [← h2]

lemma build_today_block_shape {today : Val} {units tz : String}
    {strf : String → ℤ → String} {p : String × String}
    (h : build_today_block today units tz strf = Except.ok p) :
    p.1 = today_html_of p.2 := by
  rw [build_today_block] at h
  obtain ⟨line, -, h2⟩ := bind_ok_elim h
  simp only [pure, Except.pure, Except.ok.injEq] at h2
  rw [← h2]

lemma build_hours_table_shape {hours : List Val} {units tz : String} {limit : ℕ}
    {strf : String → ℤ → String} {rows : List RowData} {p : String × String}
    (hr : (hours.take limit).mapM (fun h => hour_row h (fmt_units units) strf) =
      Except.ok rows)
    (h : build_hours_table hours units tz limit strf = Except.ok p) :
    p = ("<h3 style='margin:0.8rem 0 0.2rem 0'>Next " ++ toString limit ++
      " hours</h3>" ++ hours_table_html rows, hours_text rows) := by
  simp only [build_hours_table] at h
  obtain ⟨rows', hr', h2⟩ := bind_ok_elim h
  rw [hr] at hr'
  injection hr' with e
  subst e
  simp only [pure, Except.pure, Except.ok.injEq] at h2
  rw [← h2]

lemma build_days_list_shape {days : List Val} {units tz : String} {limit : ℕ}
    {strf : String → ℤ → String} {items : List DayData} {p : String × String}
    (hi : (days.take limit).mapM (fun d => day_item d (fmt_units units) strf) =
      Except.ok items)
    (h : build_days_list days units tz limit strf = Except.ok p) :
    p = ("<h3 style='margin:0.8rem 0 0.2rem 0'>Next " ++ toString limit ++
      " days</h3>" ++ days_list_html items, days_text items) := by
  simp only [build_days_list] at h
  obtain ⟨items', hi', h2⟩ := bind_ok_elim h
  rw [hi] at hi'
  injection hi' with e
  subst e
  simp only [pure, Except.pure, Except.ok.injEq] at h2
  rw [← h2]

/-- C9 counterexample: the hours-table builder's full HTML output
carries the numeric token of its `Next 7 hours` heading, which the text
rendering does not, so the numeric tokens extracted from its HTML output
do NOT equal those of its plain-text output even for this ordinary
one-slot snapshot. -/
theorem hours_table_tokens_differ :
    build_hours_table [Val.vDict [(PyKey.s "dt", Val.vInt 0)]] "imperial" "tz" 7
      (fun _ _ => "5 PM") =
      Except.ok
        ("<h3 style='margin:0.8rem 0 0.2rem 0'>Next 7 hours</h3><table cellpadding='4' cellspacing='0' style='border-collapse:collapse;border:1px solid #ddd;font-family:system-ui'><tr><th align='left'>Time</th><th align='right'>Temp</th><th align='right'>POP</th><th align='right'>Rain</th><th align='right'>Snow</th><th align='left'>Desc</th></tr><tr><td>5 PM</td><td align='right'>0°F</td><td align='right'>  0%</td><td align='right'>0.00</td><td align='right'>0.00</td><td></td></tr></table>",
          "Time  Temp   POP   Rain   Snow  Description\n5 PM     0°F    0%  rain  0.00  snow  0.00  ") ∧
    tokensOf (stripTags
        "<h3 style='margin:0.8rem 0 0.2rem 0'>Next 7 hours</h3><table cellpadding='4' cellspacing='0' style='border-collapse:collapse;border:1px solid #ddd;font-family:system-ui'><tr><th align='left'>Time</th><th align='right'>Temp</th><th align='right'>POP</th><th align='right'>Rain</th><th align='right'>Snow</th><th align='left'>Desc</th></tr><tr><td>5 PM</td><td align='right'>0°F</td><td align='right'>  0%</td><td align='right'>0.00</td><td align='right'>0.00</td><td></td></tr></table>") ≠
      tokensOf "Time  Temp   POP   Rain   Snow  Description\n5 PM     0°F    0%  rain  0.00  snow  0.00  " := by
  constructor
  · have hm : List.mapM (fun h => hour_row h (fmt_units "imperial") (fun _ _ => "5 PM"))
        [Val.vDict [(PyKey.s "dt", Val.vInt 0)]] =
        Except.ok [⟨"5 PM", "0°F", "  0%", "0.00", "0.00", ""⟩] := by
      simp [List.mapM, List.mapM.loop, hour_row_dt0, bind, Except.bind,
        pure, Except.pure]
    simp only [build_hours_table,
      show ([Val.vDict [(PyKey.s "dt", Val.vInt 0)]].take 7) =
        [Val.vDict [(PyKey.s "dt", Val.vInt 0)]] from rfl,
      hm, bind, Except.bind, pure, Except.pure]
    exact congrArg Except.ok (by decide)
  · decide

/-- C9 (amended): the four block builders compute each numeric cell
once and render it into both bodies, so the numeric tokens of the HTML
rendering (markup stripped, each tag read as a cell separator) equal
those of the plain-text rendering — exactly, for the Now and Today
blocks, and up to dropping the HTML-only `Next N hours` / `Next N days`
section headings for the hourly table and the daily list (provided no
rendered cell carries an apostrophe, whose HTML escape `&#x27;` would
inject digits). -/
theorem bodies_numeric_tokens_agree
    (cur today : Val) (units tz : String) (strf : String → ℤ → String)
    (hours days : List Val) (hLim dLim : ℕ)
    (p1 p2 p3 p4 : String × String) (rows : List RowData) (items : List DayData)
    (h1 : build_now_block cur units = Except.ok p1) (c1 : noApos p1.2)
    (h2 : build_today_block today units tz strf = Except.ok p2) (c2 : noApos p2.2)
    (h3 : build_hours_table hours units tz hLim strf = Except.ok p3)
    (hr : (hours.take hLim).mapM (fun h => hour_row h (fmt_units units) strf) =
      Except.ok rows)
    (c3 : ∀ r ∈ rows, rowClean r)
    (h4 : build_days_list days units tz dLim strf = Except.ok p4)
    (hi : (days.take dLim).mapM (fun d => day_item d (fmt_units units) strf) =
      Except.ok items)
    (c4 : ∀ d ∈ items, dayClean d) :
    tokensOf (stripTags p1.1) = tokensOf p1.2 ∧
    tokensOf (stripTags p2.1) = tokensOf p2.2 ∧
    p3 = ("<h3 style='margin:0.8rem 0 0.2rem 0'>Next " ++ toString hLim ++
      " hours</h3>" ++ hours_table_html rows, hours_text rows) ∧
    tokensOf (stripTags (hours_table_html rows)) = tokensOf p3.2 ∧
    p4 = ("<h3 style='margin:0.8rem 0 0.2rem 0'>Next " ++ toString dLim ++
      " days</h3>" ++ days_list_html items, days_text items) ∧
    tokensOf (stripTags (days_list_html items)) = tokensOf p4.2 := by
  have s3 := build_hours_table_shape hr h3
  have s4 := build_days_list_shape hi h4
  refine ⟨?_, ?_, s3, ?_, s4, ?_⟩
  · rw [build_now_block_shape h1]
    exact now_block_tokens p1.2 c1
  · rw [build_today_block_shape h2]
    exact today_block_tokens p2.2 c2
  · rw [show p3.2 = hours_text rows from by rw [s3]]
    exact hours_table_tokens_eq rows c3
  · rw [show p4.2 = days_text items from by rw [s4]]
    exact days_list_tokens_eq items c4

/-- Witness for C9 at a one-slot snapshot with defaulted fields. -/
theorem bodies_numeric_tokens_agree_witness :
    tokensOf (stripTags (now_html_of
        "☀️ . Temp 0°F, feels 0°F. Wind 0 mph N. Humidity 0%. UV 0. Clouds 0%.")) =
      tokensOf "☀️ . Temp 0°F, feels 0°F. Wind 0 mph N. Humidity 0%. UV 0. Clouds 0%." ∧
    tokensOf (stripTags (today_html_of
        "☀️ Today: . High 0°F, low 0°F. POP   0%; rain 0.00 in, snow 0.00 in. Sunrise 5 PM, sunset 5 PM. 🌑 New.")) =
      tokensOf "☀️ Today: . High 0°F, low 0°F. POP   0%; rain 0.00 in, snow 0.00 in. Sunrise 5 PM, sunset 5 PM. 🌑 New." ∧
    (("<h3 style='margin:0.8rem 0 0.2rem 0'>Next " ++ toString 3 ++
        " hours</h3>" ++ hours_table_html [⟨"5 PM", "0°F", "  0%", "0.00", "0.00", ""⟩],
      hours_text [⟨"5 PM", "0°F", "  0%", "0.00", "0.00", ""⟩]) =
      ("<h3 style='margin:0.8rem 0 0.2rem 0'>Next " ++ toString 3 ++
        " hours</h3>" ++ hours_table_html [⟨"5 PM", "0°F", "  0%", "0.00", "0.00", ""⟩],
      hours_text [⟨"5 PM", "0°F", "  0%", "0.00", "0.00", ""⟩])) ∧
    tokensOf (stripTags (hours_table_html [⟨"5 PM", "0°F", "  0%", "0.00", "0.00", ""⟩])) =
      tokensOf (hours_text [⟨"5 PM", "0°F", "  0%", "0.00", "0.00", ""⟩]) ∧
    (("<h3 style='margin:0.8rem 0 0.2rem 0'>Next " ++ toString 3 ++
        " days</h3>" ++ days_list_html [⟨"5 PM", "0°F", "0°F", "  0%", "", "☀️"⟩],
      days_text [⟨"5 PM", "0°F", "0°F", "  0%", "", "☀️"⟩]) =
      ("<h3 style='margin:0.8rem 0 0.2rem 0'>Next " ++ toString 3 ++
        " days</h3>" ++ days_list_html [⟨"5 PM", "0°F", "0°F", "  0%", "", "☀️"⟩],
      days_text [⟨"5 PM", "0°F", "0°F", "  0%", "", "☀️"⟩])) ∧
    tokensOf (stripTags (days_list_html [⟨"5 PM", "0°F", "0°F", "  0%", "", "☀️"⟩])) =
      tokensOf (days_text [⟨"5 PM", "0°F", "0°F", "  0%", "", "☀️"⟩]) :=
  bodies_numeric_tokens_agree (Val.vDict []) (Val.vDict []) "imperial" "tz"
    (fun _ _ => "5 PM")
    [Val.vDict [(PyKey.s "dt", Val.vInt 0)]] [Val.vDict [(PyKey.s "dt", Val.vInt 0)]]
    3 3
    (now_html_of "☀️ . Temp 0°F, feels 0°F. Wind 0 mph N. Humidity 0%. UV 0. Clouds 0%.",
      "☀️ . Temp 0°F, feels 0°F. Wind 0 mph N. Humidity 0%. UV 0. Clouds 0%.")
    (today_html_of "☀️ Today: . High 0°F, low 0°F. POP   0%; rain 0.00 in, snow 0.00 in. Sunrise 5 PM, sunset 5 PM. 🌑 New.",
      "☀️ Today: . High 0°F, low 0°F. POP   0%; rain 0.00 in, snow 0.00 in. Sunrise 5 PM, sunset 5 PM. 🌑 New.")
    ("<h3 style='margin:0.8rem 0 0.2rem 0'>Next " ++ toString 3 ++
        " hours</h3>" ++ hours_table_html [⟨"5 PM", "0°F", "  0%", "0.00", "0.00", ""⟩],
      hours_text [⟨"5 PM", "0°F", "  0%", "0.00", "0.00", ""⟩])
    ("<h3 style='margin:0.8rem 0 0.2rem 0'>Next " ++ toString 3 ++
        " days</h3>" ++ days_list_html [⟨"5 PM", "0°F", "0°F", "  0%", "", "☀️"⟩],
      days_text [⟨"5 PM", "0°F", "0°F", "  0%", "", "☀️"⟩])
    [⟨"5 PM", "0°F", "  0%", "0.00", "0.00", ""⟩]
    [⟨"5 PM", "0°F", "0°F", "  0%", "", "☀️"⟩]
    (by simp [build_now_block, now_line_empty, bind, Except.bind, pure, Except.pure])
    (by unfold noApos; decide)
    (by simp [build_today_block, today_line_empty, bind, Except.bind, pure, Except.pure])
    (by unfold noApos; decide)
    (by
      have hm : List.mapM (fun h => hour_row h (fmt_units "imperial") (fun _ _ => "5 PM"))
          [Val.vDict [(PyKey.s "dt", Val.vInt 0)]] =
          Except.ok [⟨"5 PM", "0°F", "  0%", "0.00", "0.00", ""⟩] := by
        simp [List.mapM, List.mapM.loop, hour_row_dt0, bind, Except.bind, pure,
          Except.pure]
      simp only [build_hours_table,
        show ([Val.vDict [(PyKey.s "dt", Val.vInt 0)]].take 3) =
          [Val.vDict [(PyKey.s "dt", Val.vInt 0)]] from rfl,
        hm, bind, Except.bind, pure, Except.pure])
    (by
      have hm : List.mapM (fun h => hour_row h (fmt_units "imperial") (fun _ _ => "5 PM"))
          [Val.vDict [(PyKey.s "dt", Val.vInt 0)]] =
          Except.ok [⟨"5 PM", "0°F", "  0%", "0.00", "0.00", ""⟩] := by
        simp [List.mapM, List.mapM.loop, hour_row_dt0, bind, Except.bind, pure,
          Except.pure]
      simpa using hm)
    (by
      intro r hr
      simp at hr
      subst hr
      unfold rowClean noApos
      decide)
    (by
      have hm : List.mapM (fun d => day_item d (fmt_units "imperial") (fun _ _ => "5 PM"))
          [Val.vDict [(PyKey.s "dt", Val.vInt 0)]] =
          Except.ok [⟨"5 PM", "0°F", "0°F", "  0%", "", "☀️"⟩] := by
        simp [List.mapM, List.mapM.loop, day_item_dt0, bind, Except.bind, pure,
          Except.pure]
      simp only [build_days_list,
        show ([Val.vDict [(PyKey.s "dt", Val.vInt 0)]].take 3) =
          [Val.vDict [(PyKey.s "dt", Val.vInt 0)]] from rfl,
        hm, bind, Except.bind, pure, Except.pure])
    (by
      have hm : List.mapM (fun d => day_item d (fmt_units "imperial") (fun _ _ => "5 PM"))
          [Val.vDict [(PyKey.s "dt", Val.vInt 0)]] =
          Except.ok [⟨"5 PM", "0°F", "0°F", "  0%", "", "☀️"⟩] := by
        simp [List.mapM, List.mapM.loop, day_item_dt0, bind, Except.bind, pure,
          Except.pure]
      simpa using hm)
    (by
      intro d hd
      simp at hd
      subst hd
      unfold dayClean noApos tokensOf
      decide)
